import Mathlib

/-!
# Verification of the `spacy_dist_sim` scraping pipeline

Shallow embedding of the failed-URL retry subsystem of the repository
(`extract_failed_urls.py`, `retry_failed_urls.py`, `scrape_policy_refs.py`,
`scraping_audit.py`), together with proofs about the claims of its
specification.

Library calls (`requests`, `cloudscraper`, `selenium`, `BeautifulSoup`,
file I/O) are modelled as an explicit environment delivering the outcome of
each call; everything computed by the repository's own Python code is
translated directly.
-/

namespace SpacyDistSim

/-! ## Python string primitives

Models of the Python `str` operations the scripts use.  Strings are handled
through their character lists; Python's `str.lower` is modelled on ASCII
(the patterns the scripts match against are all ASCII). -/

/-- Model of Python `str.lower` (ASCII). -/
def pyLower (s : String) : String := String.mk (s.data.map Char.toLower)

/-- `startsWithList pat s` is true when `pat` is an initial segment of `s`. -/
def startsWithList : List Char → List Char → Bool
  | [], _ => true
  | _ :: _, [] => false
  | p :: ps, c :: cs => p == c && startsWithList ps cs

/-- `containsSub s pat` models Python `pat in s`: `pat` occurs contiguously in `s`. -/
def containsSub : List Char → List Char → Bool
  | [], pat => pat.isEmpty
  | c :: rest, pat => startsWithList pat (c :: rest) || containsSub rest pat

/-- Python `pat in s` on strings. -/
def pyContains (s pat : String) : Bool := containsSub s.data pat.data

/-! ## `categorize_error` (`extract_failed_urls.py`) -/

/-- Translation of `categorize_error` from `extract_failed_urls.py`:
a chain of case-insensitive substring tests with first-match precedence. -/
def categorize_error (error_msg : String) : String :=
  let e := pyLower error_msg
  if pyContains e "404" || pyContains e "not found" then "404_Not_Found"
  else if pyContains e "403" || pyContains e "forbidden" then "403_Forbidden"
  else if pyContains e "401" || pyContains e "unauthorized" then "401_Unauthorized"
  else if pyContains e "500" || pyContains e "internal server error" then "500_Server_Error"
  else if pyContains e "502" || pyContains e "bad gateway" then "502_Bad_Gateway"
  else if pyContains e "503" || pyContains e "service unavailable" then "503_Service_Unavailable"
  else if pyContains e "timeout" || pyContains e "timed out" then "Timeout"
  else if pyContains e "connection" && pyContains e "refused" then "Connection_Refused"
  else if pyContains e "connection" then "Connection_Error"
  else if pyContains e "ssl" || pyContains e "certificate" then "SSL_Certificate_Error"
  else if pyContains e "redirect" && pyContains e "too many" then "Too_Many_Redirects"
  else if pyContains e "dns" || pyContains e "name resolution" then "DNS_Error"
  else if pyContains e "max retries" then "Max_Retries_Exceeded"
  else if pyContains e "read timed out" then "Read_Timeout"
  else "Other_Error"

/-- The fixed label set of the error taxonomy. -/
def errorLabels : List String :=
  ["404_Not_Found", "403_Forbidden", "401_Unauthorized", "500_Server_Error",
   "502_Bad_Gateway", "503_Service_Unavailable", "Timeout", "Connection_Refused",
   "Connection_Error", "SSL_Certificate_Error", "Too_Many_Redirects", "DNS_Error",
   "Max_Retries_Exceeded", "Read_Timeout", "Other_Error"]

/-- The fourteen match conditions of `categorize_error`, in source order. -/
def matchConditions (error_msg : String) : List Bool :=
  let e := pyLower error_msg
  [pyContains e "404" || pyContains e "not found",
   pyContains e "403" || pyContains e "forbidden",
   pyContains e "401" || pyContains e "unauthorized",
   pyContains e "500" || pyContains e "internal server error",
   pyContains e "502" || pyContains e "bad gateway",
   pyContains e "503" || pyContains e "service unavailable",
   pyContains e "timeout" || pyContains e "timed out",
   pyContains e "connection" && pyContains e "refused",
   pyContains e "connection",
   pyContains e "ssl" || pyContains e "certificate",
   pyContains e "redirect" && pyContains e "too many",
   pyContains e "dns" || pyContains e "name resolution",
   pyContains e "max retries",
   pyContains e "read timed out"]

/-- True when at least one of the match conditions of `categorize_error` fires. -/
def anyPatternMatches (error_msg : String) : Bool :=
  (matchConditions error_msg).any (fun b => b)

/-! ## `analyze_url_duplicates` (`scraping_audit.py`) -/

/-- A URL reference record as collected by `extract_all_urls`. -/
structure UrlItem where
  policy_id : String
  ref_num : Nat
  url : String
deriving Repr, DecidableEq

/-- The numeric fields of the dictionary returned by `analyze_url_duplicates`. -/
structure DupAnalysis where
  total_urls : Nat
  unique_urls : Nat
  duplicate_urls : Nat
  duplicate_instances : Nat
deriving Repr, DecidableEq

/-- Translation of `analyze_url_duplicates` from `scraping_audit.py`.
`Counter(urls_only)` is modelled by counting occurrences over the
deduplicated list of URLs (its keys are the distinct URLs). -/
def analyze_url_duplicates (url_list : List UrlItem) : DupAnalysis :=
  let urls_only := url_list.map (fun item => item.url)
  let distinct := urls_only.dedup
  let duplicates := distinct.filter (fun u => 1 < urls_only.count u)
  { total_urls := urls_only.length
    unique_urls := distinct.length
    duplicate_urls := duplicates.length
    duplicate_instances := (duplicates.map (fun u => urls_only.count u - 1)).sum }

/-! ## `generate_retry_script` (`extract_failed_urls.py`) -/

/-- A failed-URL record after `analyze_failed_urls` has attached its
`error_category`. -/
structure FailedRecord where
  policy_id : String
  ref_number : Nat
  url : String
  error : String
  error_category : String
deriving Repr, DecidableEq

/-- Translation of `analyze_failed_urls`'s category assignment: every record
gets `error_category = categorize_error(error)`. -/
def analyze_failed_urls (failed_urls : List FailedRecord) : List FailedRecord :=
  failed_urls.map (fun record => { record with error_category := categorize_error record.error })

/-- The permanent failure classes excluded from the generated retry script. -/
def no_retry_categories : List String :=
  ["404_Not_Found", "403_Forbidden", "401_Unauthorized"]

/-- Translation of the record selection of `generate_retry_script` from
`extract_failed_urls.py`: the list of records written into the generated
script's `RETRY_URLS` table (file output abstracted away). -/
def generate_retry_script (failed_urls : List FailedRecord) : List FailedRecord :=
  failed_urls.filter (fun record => !(no_retry_categories.contains record.error_category))

/-! ## A model of `urllib.parse.urlparse`

`canonicalize_url`, `get_domain` and `get_file_extension_from_url` all go
through Python's `urllib.parse.urlparse`.  The model below follows CPython's
`urlsplit`/`urlparse`: strip the unsafe bytes `\t`, `\r`, `\n`; split a
scheme at the first `:` when everything before it is a valid scheme
character and the first character is an ASCII letter; read a netloc after
`//` up to the next `/`, `?` or `#`; split the fragment at the first `#`;
then split the query at the first `?`; finally `urlparse` splits parameters
at the `;` after the last `/` of the path. -/

/-- Characters allowed in a URL scheme. -/
def isSchemeChar (c : Char) : Bool :=
  c.isAlpha || c.isDigit || c == '+' || c == '-' || c == '.'

/-- Split at the first occurrence of `c`: `some (before, after)` when found. -/
def splitOnCharAux (c : Char) : List Char → Option (List Char × List Char)
  | [] => none
  | a :: rest =>
    if a == c then some ([], rest)
    else
      match splitOnCharAux c rest with
      | none => none
      | some (pre, post) => some (a :: pre, post)

/-- Python `s.split(c, 1)` when `c in s`, else `(s, "")`. -/
def splitOnChar (c : Char) (s : List Char) : List Char × List Char :=
  match splitOnCharAux c s with
  | none => (s, [])
  | some (pre, post) => (pre, post)

/-- Scheme extraction of `urlsplit`: `(scheme, rest)`. -/
def splitScheme (s : List Char) : List Char × List Char :=
  match splitOnCharAux ':' s with
  | none => ([], s)
  | some (pre, post) =>
    match pre with
    | [] => ([], s)
    | c0 :: _ =>
      if c0.isAlpha && pre.all isSchemeChar then (pre.map Char.toLower, post)
      else ([], s)

/-- Netloc extraction of `urlsplit`: after a leading `//`, up to the next
`/`, `?` or `#`; `(netloc, rest)`. -/
def splitNetlocParts (s : List Char) : List Char × List Char :=
  if s.take 2 = ['/', '/'] then
    let rest := s.drop 2
    let nl := rest.takeWhile (fun c => !(c == '/' || c == '?' || c == '#'))
    (nl, rest.drop nl.length)
  else ([], s)

/-- The components returned by `urllib.parse.urlparse`. -/
structure UrlParts where
  scheme : String
  netloc : String
  path : String
  params : String
  query : String
  fragment : String
deriving Repr, DecidableEq

/-- Model of `urllib.parse.urlsplit`. -/
def pyUrlsplit (url : String) : UrlParts :=
  let s := url.data.filter (fun c => !(c == '\t' || c == '\r' || c == '\n'))
  let sc := splitScheme s
  let nl := splitNetlocParts sc.2
  let fr := splitOnChar '#' nl.2
  let pq := splitOnChar '?' fr.1
  { scheme := String.mk sc.1, netloc := String.mk nl.1, path := String.mk pq.1,
    params := "", query := String.mk pq.2, fragment := String.mk fr.2 }

/-- Index of the last occurrence of `c` in `s`. -/
def rfindIdx (c : Char) (s : List Char) : Option Nat :=
  match s.reverse.findIdx? (· == c) with
  | none => none
  | some i => some (s.length - 1 - i)

/-- Index of the first occurrence of `c` in `s` at or after `start`. -/
def findFrom (c : Char) (s : List Char) (start : Nat) : Option Nat :=
  match (s.drop start).findIdx? (· == c) with
  | none => none
  | some i => some (start + i)

/-- Model of `urllib.parse._splitparams` (split `;params` after the last
`/` of the path). -/
def splitParams (path : List Char) : List Char × List Char :=
  if path.contains '/' then
    match rfindIdx '/' path with
    | none => (path, [])
    | some j =>
      match findFrom ';' path j with
      | none => (path, [])
      | some i => (path.take i, path.drop (i + 1))
  else
    match splitOnCharAux ';' path with
    | none => (path, [])
    | some (pre, post) => (pre, post)

/-- Model of `urllib.parse.urlparse`: `urlsplit` plus parameter splitting. -/
def pyUrlparse (url : String) : UrlParts :=
  let r := pyUrlsplit url
  if r.path.data.contains ';' then
    let pp := splitParams r.path.data
    { r with path := String.mk pp.1, params := String.mk pp.2 }
  else r

/-! ## `canonicalize_url` (`scraping_audit.py`) -/

/-- Python `str.replace` (all non-overlapping occurrences, left to right),
implemented with a fuel parameter; `fuel = s.length` is enough for any
non-empty pattern, which is how `pyReplace` instantiates it. -/
def replaceAll (pat repl : List Char) : Nat → List Char → List Char
  | _, [] => []
  | 0, s => s
  | fuel + 1, c :: rest =>
    if startsWithList pat (c :: rest) then
      repl ++ replaceAll pat repl fuel ((c :: rest).drop pat.length)
    else
      c :: replaceAll pat repl fuel rest

/-- Python `s.replace(pat, repl)` for non-empty `pat`. -/
def pyReplace (s pat repl : String) : String :=
  String.mk (replaceAll pat.data repl.data s.data.length s.data)

/-- Python `s.rstrip('/')`. -/
def pyRstripSlash (s : String) : String :=
  String.mk ((s.data.reverse.dropWhile (fun c => c == '/')).reverse)

/-- Translation of `canonicalize_url` from `scraping_audit.py`. -/
def canonicalize_url (url : String) : String :=
  let parsed := pyUrlparse (pyLower url)
  let scheme := if parsed.scheme = "" then "https" else parsed.scheme
  let netloc := pyReplace parsed.netloc "www." ""
  let path := if pyRstripSlash parsed.path = "" then "/" else pyRstripSlash parsed.path
  scheme ++ "://" ++ netloc ++ path

/-! ## The retry fetcher (`retry_failed_urls.py`)

`download_pdf` and `scrape_html` are recursive fetchers over a cloudscraper
session with a Selenium fallback.  The network and browser are modelled by
an environment: `cloudGet k` is the outcome of the `k`-th `scraper.get`
call of the run (an exception string, or the response text — a response
implies `raise_for_status` passed), `selenium k` the outcome of the `k`-th
`scrape_with_selenium_fallback` call (which writes the file itself), and
`extractText` stands for BeautifulSoup's tag stripping and text extraction.
Every call is recorded in an event trace; `SELENIUM_DOMAINS` is the
`seleniumDomains` component of the state. -/

instance {ε α : Type} [DecidableEq ε] [DecidableEq α] : DecidableEq (Except ε α) := fun a b =>
  match a, b with
  | .ok x, .ok y =>
    if h : x = y then isTrue (by rw [h]) else isFalse (by intro hc; cases hc; exact h rfl)
  | .error x, .error y =>
    if h : x = y then isTrue (by rw [h]) else isFalse (by intro hc; cases hc; exact h rfl)
  | .ok _, .error _ => isFalse (by intro hc; cases hc)
  | .error _, .ok _ => isFalse (by intro hc; cases hc)

/-- One observable action of the fetch pipeline. -/
inductive FetchEvent where
  | plainGet (outcome : Except String String)
  | cloudGet (idx : Nat) (outcome : Except String String)
  | selenium (idx : Nat) (outcome : Except String Unit)
  | sleepRetry
deriving Repr, DecidableEq

/-- Outcomes of the library calls the scripts make. -/
structure FetchEnv where
  cloudGet : Nat → Except String String
  selenium : Nat → Except String Unit
  extractText : String → String

/-- Mutable state of a retry run: `SELENIUM_DOMAINS` plus the event log. -/
structure ScrapeState where
  seleniumDomains : List String
  trace : List FetchEvent
deriving Repr, DecidableEq

def MAX_RETRIES : Nat := 3

/-- The initial state of a run: `SELENIUM_DOMAINS = set()`, nothing logged. -/
def initState : ScrapeState := { seleniumDomains := [], trace := [] }

def isCloudEvent : FetchEvent → Bool
  | .cloudGet _ _ => true
  | _ => false

def isSelEvent : FetchEvent → Bool
  | .selenium _ _ => true
  | _ => false

/-- Number of cloudscraper fetch attempts recorded so far. -/
def countCloud (tr : List FetchEvent) : Nat := (tr.filter isCloudEvent).length

/-- Number of Selenium fallback attempts recorded so far. -/
def countSel (tr : List FetchEvent) : Nat := (tr.filter isSelEvent).length

def pushEvent (st : ScrapeState) (e : FetchEvent) : ScrapeState :=
  { st with trace := st.trace ++ [e] }

/-- `SELENIUM_DOMAINS.add(domain)`. -/
def addDomain (st : ScrapeState) (d : String) : ScrapeState :=
  if st.seleniumDomains.contains d then st
  else { st with seleniumDomains := st.seleniumDomains ++ [d] }

/-- Python `str.strip()`. -/
def pyStrip (s : String) : String :=
  String.mk (((s.data.dropWhile Char.isWhitespace).reverse.dropWhile Char.isWhitespace).reverse)

/-- Keep the last character of every whitespace run. -/
def squeezeWs : List Char → List Char
  | [] => []
  | [c] => [c]
  | a :: b :: rest =>
    if a.isWhitespace && b.isWhitespace then squeezeWs (b :: rest)
    else a :: squeezeWs (b :: rest)

/-- Translation of `clean_text`: `re.sub(r"\s+", " ", text)` (collapse each
whitespace run to a single space) followed by `strip()`. -/
def clean_text (text : String) : String :=
  pyStrip (String.mk ((squeezeWs text.data).map (fun c => if c.isWhitespace then ' ' else c)))

/-- Translation of `get_domain`: `urlparse(url).netloc`. -/
def get_domain (url : String) : String := (pyUrlparse url).netloc

/-- The Cloudflare challenge-page test of `scrape_html` (substring match on
the response body). -/
def cloudflareChallenge (body : String) : Bool :=
  pyContains body "Just a moment" || pyContains body "Checking your browser" ||
    pyContains body "cf-browser-verification"

/-- The `except`-branch keyword test of `scrape_html`:
`any(keyword in error_str.lower() for keyword in ['403', 'forbidden', 'cloudflare', 'blocked'])`. -/
def fallbackKeyword (error_str : String) : Bool :=
  let el := pyLower error_str
  pyContains el "403" || pyContains el "forbidden" ||
    pyContains el "cloudflare" || pyContains el "blocked"

/-- Translation of `scrape_with_selenium_fallback`: one browser-automation
attempt; success writes the file and returns `True`, failure re-raises. -/
def scrape_with_selenium_fallback (env : FetchEnv) (st : ScrapeState) :
    Except String Bool × ScrapeState :=
  let k := countSel st.trace
  match env.selenium k with
  | .ok _ => (.ok true, pushEvent st (.selenium k (.ok ())))
  | .error e => (.error e, pushEvent st (.selenium k (.error e)))

/-- Translation of `download_pdf`: fetch and save; on an exception, sleep
and retry while `retries < MAX_RETRIES`, else re-raise. -/
def download_pdf (env : FetchEnv) (retries : Nat) (st : ScrapeState) :
    Except String Bool × ScrapeState :=
  let k := countCloud st.trace
  match env.cloudGet k with
  | .ok body => (.ok true, pushEvent st (.cloudGet k (.ok body)))
  | .error e =>
    let st1 := pushEvent st (.cloudGet k (.error e))
    if _h : retries < MAX_RETRIES then
      download_pdf env (retries + 1) (pushEvent st1 .sleepRetry)
    else (.error e, st1)
termination_by MAX_RETRIES + 1 - retries

/-- Translation of `scrape_html`.  The three inlined copies of the
`fallbackKeyword`/retry/re-raise block are the single Python `except`
block, reached from its three raise sites: a failed `scraper.get`, a
Selenium failure after a detected challenge page, and the
"Content too short, might be blocked" exception. -/
def scrape_html (env : FetchEnv) (url : String) (retries : Nat) (st : ScrapeState) :
    Except String Bool × ScrapeState :=
  let domain := get_domain url
  if st.seleniumDomains.contains domain then
    scrape_with_selenium_fallback env st
  else
    match env.cloudGet (countCloud st.trace) with
    | .ok body =>
      let st1 := pushEvent st (.cloudGet (countCloud st.trace) (.ok body))
      if cloudflareChallenge body then
        match scrape_with_selenium_fallback env (addDomain st1 domain) with
        | (.ok b, st2) => (.ok b, st2)
        | (.error se, st2) =>
          if fallbackKeyword se && retries == 0 then
            scrape_with_selenium_fallback env (addDomain st2 domain)
          else if _h : retries < MAX_RETRIES then
            scrape_html env url (retries + 1) (pushEvent st2 .sleepRetry)
          else (.error se, st2)
      else
        let text := clean_text (env.extractText body)
        if (pyStrip text).data.length < 100 then
          if fallbackKeyword "Content too short, might be blocked" && retries == 0 then
            scrape_with_selenium_fallback env (addDomain st1 domain)
          else if _h : retries < MAX_RETRIES then
            scrape_html env url (retries + 1) (pushEvent st1 .sleepRetry)
          else (.error "Content too short, might be blocked", st1)
        else (.ok true, st1)
    | .error e =>
      let st1 := pushEvent st (.cloudGet (countCloud st.trace) (.error e))
      if fallbackKeyword e && retries == 0 then
        scrape_with_selenium_fallback env (addDomain st1 domain)
      else if _h : retries < MAX_RETRIES then
        scrape_html env url (retries + 1) (pushEvent st1 .sleepRetry)
      else (.error e, st1)
termination_by MAX_RETRIES + 1 - retries

/-- A cloudscraper response that is a detected challenge page. -/
def isChallengeOk : FetchEvent → Bool
  | .cloudGet _ (.ok body) => cloudflareChallenge body
  | _ => false

/-- The exception `scrape_html` would re-raise for attempt index `i`:
the fetch error, or the "too short" exception when the fetch succeeded. -/
def attemptException (env : FetchEnv) (i : Nat) : String :=
  match env.cloudGet i with
  | .error err => err
  | .ok _ => "Content too short, might be blocked"

/-- Whether a fetch attempt outcome is a success. -/
def exceptIsOk : Except String String → Bool
  | .ok _ => true
  | .error _ => false

/-! ## The fetch pipeline across the three scripts

The repository's pipeline is: `scrape_policy_refs.py` fetches every URL
with a plain `requests` client and records failures in the output CSV;
`extract_failed_urls.py` collects the failed rows; `retry_failed_urls.py`
retries them with the cloudscraper/Selenium fetcher.  `fetch_pipeline`
composes the two fetch stages for one URL: the plain attempt
(`scrape_html` of `scrape_policy_refs.py`, no challenge detection and no
fallback) and, on failure, the retry fetcher. -/

/-- The plain stage's outcome plus the retry fetcher's environment. -/
structure PipelineEnv where
  plainGet : Except String String
  fetch : FetchEnv

/-- Translation of `scrape_html` from `scrape_policy_refs.py`: one plain
`requests.get` (plus `raise_for_status`), text extraction and file write
abstracted; no retry, no challenge detection, no fallback. -/
def plain_scrape_html (env : PipelineEnv) : Except String Unit × List FetchEvent :=
  match env.plainGet with
  | .ok body => (.ok (), [.plainGet (.ok body)])
  | .error e => (.error e, [.plainGet (.error e)])

/-- The composed fetch pipeline for one URL: plain client first, the
cloudscraper/Selenium retry fetcher only after a recorded failure. -/
def fetch_pipeline (env : PipelineEnv) (url : String) : Except String Bool × ScrapeState :=
  match plain_scrape_html env with
  | (.ok _, tr) => (.ok true, { seleniumDomains := [], trace := tr })
  | (.error _, tr) => scrape_html env.fetch url 0 { seleniumDomains := [], trace := tr }

/-- Concrete fetch environment for witnesses: every cloudscraper attempt
fails with a non-keyword error, Selenium always succeeds. -/
def envSelW : FetchEnv :=
  { cloudGet := fun _ => Except.error "boom"
    selenium := fun _ => Except.ok ()
    extractText := fun s => s }

/-- A state in which `known.org` is already marked for Selenium. -/
def stSelW : ScrapeState := { seleniumDomains := ["known.org"], trace := [] }

/-- Environment for the `retry_fetchers_terminate` witness: every attempt
fails with an error none of whose keywords trigger the Selenium fallback. -/
def envRetryW : FetchEnv :=
  { cloudGet := fun _ => Except.error "connection reset"
    selenium := fun _ => Except.ok ()
    extractText := fun s => s }

/-- Environment for the C2 counterexample: the first cloudscraper attempt
fails with a `403` error, and the Selenium fallback also fails. -/
def envRetryX : FetchEnv :=
  { cloudGet := fun _ => Except.error "403 Forbidden"
    selenium := fun _ => Except.error "selenium boom"
    extractText := fun s => s }

/-- Pipeline environment for the `fetch_pipeline_order` witness: the plain
client fails and the first cloudscraper attempt is a `403`. -/
def envPipeW : PipelineEnv :=
  { plainGet := Except.error "connection refused"
    fetch :=
      { cloudGet := fun _ => Except.error "403 Forbidden"
        selenium := fun _ => Except.ok ()
        extractText := fun s => s } }

/-- Pipeline environment for the C3 counterexample: the plain client fails,
the first cloudscraper attempt fails without a fallback keyword, and every
later attempt fails with `403 Forbidden`. -/
def envPipeX : PipelineEnv :=
  { plainGet := Except.error "connection aborted"
    fetch :=
      { cloudGet := fun k => if k == 0 then Except.error "read error"
          else Except.error "403 Forbidden"
        selenium := fun _ => Except.ok ()
        extractText := fun s => s } }

/-! ## The retry orchestrator's main loop (`retry_failed_urls.py`, `main`)

Rows are pairs of a row identifier and the `retry_url` outcome
(`ok filetype` or `error message`).  The loop state mirrors the script's
counters; `saves` records the `processed` value at every in-loop
`df.to_csv` call and `order` the identifiers in processing order. -/

structure LoopState where
  success_count : Nat
  error_count : Nat
  saves : List Nat
  order : List Nat
deriving Repr, DecidableEq

def initLoopState : LoopState :=
  { success_count := 0, error_count := 0, saves := [], order := [] }

/-- One pass of the `for idx, row in df.iterrows()` loop: compute
`processed = error_count + success_count + 1`, process the row, bump the
matching counter, and checkpoint when `processed % 25 == 0`. -/
def retry_loop : List (Nat × Except String String) → LoopState → LoopState
  | [], acc => acc
  | (rid, outcome) :: rest, acc =>
    let processed := acc.error_count + acc.success_count + 1
    let acc1 :=
      match outcome with
      | .ok _ => { acc with success_count := acc.success_count + 1, order := acc.order ++ [rid] }
      | .error _ => { acc with error_count := acc.error_count + 1, order := acc.order ++ [rid] }
    let acc2 :=
      if processed % 25 == 0 then { acc1 with saves := acc1.saves ++ [processed] }
      else acc1
    retry_loop rest acc2

/-- The whole `main` loop: run the rows, then the unconditional final
`df.to_csv`, recorded as one more save at the total processed count. -/
def retry_main (rows : List (Nat × Except String String)) : LoopState :=
  let final := retry_loop rows initLoopState
  { final with saves := final.saves ++ [final.error_count + final.success_count] }

/-- The in-loop checkpoints expected between processed counts `n+1` and
`n+len`. -/
def expectedSaves (n len : Nat) : List Nat :=
  ((List.range len).map (fun i => n + i + 1)).filter (fun k => k % 25 == 0)

/-! ## `process_url` in the initial scraper (`scrape_policy_refs.py`)

A dataframe cell is either pandas NaN or a string; `cellToStr` models
Python `str(url)` (`str(nan)` prints `"nan"`, a non-blank string, but the
`pd.isna` guard fires first).  The ambient requests library is an
environment: the HEAD content-type lookup and the GET-plus-file-write
performed by `download_pdf` / `scrape_html`, each of which may raise. -/

inductive Cell where
  | na
  | str (v : String)
deriving Repr, DecidableEq

def pyIsna : Cell → Bool
  | .na => true
  | .str _ => false

def cellToStr : Cell → String
  | .na => "nan"
  | .str v => v

/-- Python `s.endswith(suffix)`. -/
def pyEndsWith (s suffix : String) : Bool :=
  startsWithList suffix.data.reverse s.data.reverse

def get_file_extension_from_url (url : String) : Option String :=
  let path := pyLower (pyUrlparse url).path
  if pyEndsWith path ".pdf" then some "pdf" else none

/-- Observable side effects of `process_url`: the HEAD request, the GET
request issued by `download_pdf` / `scrape_html`, and the file write. -/
inductive RefEvent where
  | headReq
  | getReq
  | fileWrite
deriving Repr, DecidableEq

structure RefScrapeEnv where
  headContentType : Except String String
  fetchResult : Except String Unit

/-- `process_url(url, policy_id, ref_num)`: skip NaN/blank cells, else
decide pdf/html (by URL extension, falling back to a HEAD request) and
fetch; any exception is returned as `(None, str(e))`.  Returns the
`(filetype, error)` pair together with the list of performed effects. -/
def process_url (env : RefScrapeEnv) (url : Cell) (policy_id : String) (ref_num : Nat) :
    (Option String × Option String) × List RefEvent :=
  if pyIsna url || pyStrip (cellToStr url) == "" then
    ((none, none), [])
  else
    match get_file_extension_from_url (pyStrip (cellToStr url)) with
    | some _ =>
      match env.fetchResult with
      | .ok _ => ((some "pdf", none), [RefEvent.getReq, RefEvent.fileWrite])
      | .error e => ((none, some e), [RefEvent.getReq])
    | none =>
      match env.headContentType with
      | .error e => ((none, some e), [RefEvent.headReq])
      | .ok ct =>
        let ext := if pyContains (pyLower ct) "pdf" then "pdf" else "html"
        match env.fetchResult with
        | .ok _ => ((some ext, none), [RefEvent.headReq, RefEvent.getReq, RefEvent.fileWrite])
        | .error e => ((none, some e), [RefEvent.headReq, RefEvent.getReq])

/-- Python truthiness of the `filetype` / `error` values. -/
def pyTruthyStr : Option String → Bool
  | none => false
  | some s => !(s == "")

/-- The main-loop cell update: `if filetype: df.at[...] = filetype` and
`if error: df.at[...] = error`, starting from the initialised cells. -/
def updateRefCells (filetype err : Option String) (cells : String × String) : String × String :=
  (if pyTruthyStr filetype then filetype.getD "" else cells.1,
   if pyTruthyStr err then err.getD "" else cells.2)

def envRefW : RefScrapeEnv :=
  { headContentType := Except.ok "text/html", fetchResult := Except.ok () }

theorem startsWithList_contains {pat s : List Char}
    (h : startsWithList pat s = true) : containsSub s pat = true := by
  cases s with
  | nil => cases pat with
    | nil => rfl
    | cons p ps => simp [startsWithList] at h
  | cons c cs => simp [containsSub, h]

theorem containsSub_cons {pat s : List Char} (c : Char)
    (h : containsSub s pat = true) : containsSub (c :: s) pat = true := by
  simp [containsSub, h]

theorem startsWithList_append_right {a b s : List Char}
    (h : startsWithList (a ++ b) s = true) : containsSub s b = true := by
  induction a generalizing s with
  | nil => exact startsWithList_contains (by simpa using h)
  | cons x a ih =>
    cases s with
    | nil =>
      have hfalse : startsWithList ((x :: a) ++ b) [] = false := rfl
      rw [hfalse] at h
      cases h
    | cons c cs =>
      rw [List.cons_append] at h
      simp only [startsWithList, Bool.and_eq_true] at h
      exact containsSub_cons c (ih h.2)

/-- A contiguous occurrence of `a ++ b` yields a contiguous occurrence of `b`. -/
theorem containsSub_append_right {a b s : List Char}
    (h : containsSub s (a ++ b) = true) : containsSub s b = true := by
  induction s with
  | nil =>
    simp only [containsSub, List.isEmpty_iff, List.append_eq_nil] at h ⊢
    exact h.2
  | cons c cs ih =>
    have hrw : containsSub (c :: cs) (a ++ b)
        = (startsWithList (a ++ b) (c :: cs) || containsSub cs (a ++ b)) := rfl
    rw [hrw] at h
    simp only [Bool.or_eq_true] at h
    cases h with
    | inl h => exact startsWithList_append_right h
    | inr h => exact containsSub_cons c (ih h)

/-- C1: `categorize_error` is total with values in the fixed label set, and
a message matching none of the patterns is labelled `Other_Error`. -/
theorem categorize_error_total (msg : String) :
    categorize_error msg ∈ errorLabels ∧
    (anyPatternMatches msg = false → categorize_error msg = "Other_Error") := by
  constructor
  · unfold categorize_error
    dsimp only
    generalize (pyContains (pyLower msg) "404" || pyContains (pyLower msg) "not found") = c1
    generalize (pyContains (pyLower msg) "403" || pyContains (pyLower msg) "forbidden") = c2
    generalize (pyContains (pyLower msg) "401" || pyContains (pyLower msg) "unauthorized") = c3
    generalize (pyContains (pyLower msg) "500" || pyContains (pyLower msg) "internal server error") = c4
    generalize (pyContains (pyLower msg) "502" || pyContains (pyLower msg) "bad gateway") = c5
    generalize (pyContains (pyLower msg) "503" || pyContains (pyLower msg) "service unavailable") = c6
    generalize (pyContains (pyLower msg) "timeout" || pyContains (pyLower msg) "timed out") = c7
    generalize (pyContains (pyLower msg) "connection" && pyContains (pyLower msg) "refused") = c8
    generalize (pyContains (pyLower msg) "connection") = c9
    generalize (pyContains (pyLower msg) "ssl" || pyContains (pyLower msg) "certificate") = c10
    generalize (pyContains (pyLower msg) "redirect" && pyContains (pyLower msg) "too many") = c11
    generalize (pyContains (pyLower msg) "dns" || pyContains (pyLower msg) "name resolution") = c12
    generalize (pyContains (pyLower msg) "max retries") = c13
    generalize (pyContains (pyLower msg) "read timed out") = c14
    cases c1 with
    | true => simp [errorLabels]
    | false => cases c2 with
      | true => simp [errorLabels]
      | false => cases c3 with
        | true => simp [errorLabels]
        | false => cases c4 with
          | true => simp [errorLabels]
          | false => cases c5 with
            | true => simp [errorLabels]
            | false => cases c6 with
              | true => simp [errorLabels]
              | false => cases c7 with
                | true => simp [errorLabels]
                | false => cases c8 with
                  | true => simp [errorLabels]
                  | false => cases c9 with
                    | true => simp [errorLabels]
                    | false => cases c10 with
                      | true => simp [errorLabels]
                      | false => cases c11 with
                        | true => simp [errorLabels]
                        | false => cases c12 with
                          | true => simp [errorLabels]
                          | false => cases c13 with
                            | true => simp [errorLabels]
                            | false => cases c14 with
                              | true => simp [errorLabels]
                              | false => simp [errorLabels]
  · intro h
    unfold anyPatternMatches matchConditions at h
    dsimp only at h
    simp only [List.any_cons, List.any_nil, Bool.or_eq_false_iff] at h
    obtain ⟨h1, h2, h3, h4, h5, h6, h7, h8, h9, h10, h11, h12, h13, h14⟩ := h
    unfold categorize_error
    dsimp only
    simp only [h1, h2, h3, h4, h5, h6, h7, h8, h9, h10, h11, h12, h13, h14]
    simp

/-- Witness for the conditional part of `categorize_error_total`. -/
theorem categorize_error_total_witness :
    anyPatternMatches "everything is fine" = false ∧
    categorize_error "everything is fine" = "Other_Error" :=
  ⟨by decide, (categorize_error_total "everything is fine").2 (by decide)⟩

/-- C8: the `Read_Timeout` branch of `categorize_error` is dead code: any
message containing `"read timed out"` also contains `"timed out"` and is
classified by an earlier branch, so the function never returns
`"Read_Timeout"`. -/
theorem categorize_error_never_read_timeout (msg : String) :
    categorize_error msg ≠ "Read_Timeout" ∧
    (pyContains (pyLower msg) "read timed out" = true →
      pyContains (pyLower msg) "timed out" = true) := by
  have key : pyContains (pyLower msg) "read timed out" = true →
      pyContains (pyLower msg) "timed out" = true := by
    intro h
    have hsplit : ("read timed out").data = ("read ").data ++ ("timed out").data := by decide
    unfold pyContains at h ⊢
    rw [hsplit] at h
    exact containsSub_append_right h
  refine ⟨?_, key⟩
  unfold categorize_error
  dsimp only
  generalize (pyContains (pyLower msg) "404" || pyContains (pyLower msg) "not found") = c1
  generalize (pyContains (pyLower msg) "403" || pyContains (pyLower msg) "forbidden") = c2
  generalize (pyContains (pyLower msg) "401" || pyContains (pyLower msg) "unauthorized") = c3
  generalize (pyContains (pyLower msg) "500" || pyContains (pyLower msg) "internal server error") = c4
  generalize (pyContains (pyLower msg) "502" || pyContains (pyLower msg) "bad gateway") = c5
  generalize (pyContains (pyLower msg) "503" || pyContains (pyLower msg) "service unavailable") = c6
  generalize hc7 : (pyContains (pyLower msg) "timeout" || pyContains (pyLower msg) "timed out") = c7
  generalize (pyContains (pyLower msg) "connection" && pyContains (pyLower msg) "refused") = c8
  generalize (pyContains (pyLower msg) "connection") = c9
  generalize (pyContains (pyLower msg) "ssl" || pyContains (pyLower msg) "certificate") = c10
  generalize (pyContains (pyLower msg) "redirect" && pyContains (pyLower msg) "too many") = c11
  generalize (pyContains (pyLower msg) "dns" || pyContains (pyLower msg) "name resolution") = c12
  generalize (pyContains (pyLower msg) "max retries") = c13
  generalize hc14 : (pyContains (pyLower msg) "read timed out") = c14
  cases c1 with
  | true => simp
  | false => cases c2 with
    | true => simp
    | false => cases c3 with
      | true => simp
      | false => cases c4 with
        | true => simp
        | false => cases c5 with
          | true => simp
          | false => cases c6 with
            | true => simp
            | false => cases c7 with
              | true => simp
              | false => cases c8 with
                | true => simp
                | false => cases c9 with
                  | true => simp
                  | false => cases c10 with
                    | true => simp
                    | false => cases c11 with
                      | true => simp
                      | false => cases c12 with
                        | true => simp
                        | false => cases c13 with
                          | true => simp
                          | false => cases c14 with
                            | false => simp
                            | true =>
                              exfalso
                              have ht := key hc14
                              rw [ht] at hc7
                              simp at hc7

theorem sum_map_sub_one {α : Type} (l : List α) (f : α → Nat)
    (h : ∀ x ∈ l, 1 ≤ f x) :
    (l.map f).sum = (l.map fun x => f x - 1).sum + l.length := by
  induction l with
  | nil => simp
  | cons a t ih =>
    simp only [List.map_cons, List.sum_cons, List.length_cons]
    have h1 := h a (List.mem_cons_self a t)
    have ih' := ih (fun x hx => h x (List.mem_cons_of_mem a hx))
    omega

theorem sum_map_filter_of_zero {α : Type} (l : List α) (f : α → Nat) (p : α → Bool)
    (h : ∀ x ∈ l, p x = false → f x = 0) :
    ((l.filter p).map f).sum = (l.map f).sum := by
  induction l with
  | nil => simp
  | cons a t ih =>
    have ih' := ih (fun x hx hp => h x (List.mem_cons_of_mem a hx) hp)
    by_cases hp : p a = true
    · simp [List.filter_cons, hp, ih']
    · have hz := h a (List.mem_cons_self a t) (Bool.eq_false_iff.mpr hp)
      simp [List.filter_cons, hp, ih', hz]

/-- C9: in `analyze_url_duplicates`, the total number of URL references is
the number of distinct URLs plus the number of duplicate instances (each
duplicated URL contributing its occurrence count minus one). -/
theorem analyze_url_duplicates_conservation (url_list : List UrlItem) :
    (analyze_url_duplicates url_list).total_urls =
      (analyze_url_duplicates url_list).unique_urls +
        (analyze_url_duplicates url_list).duplicate_instances := by
  unfold analyze_url_duplicates
  dsimp only
  set u := url_list.map (fun item => item.url) with hu
  have hlen : (u.dedup.map fun x => u.count x).sum = u.length :=
    List.sum_map_count_dedup_eq_length u
  have hpos : ∀ x ∈ u.dedup, 1 ≤ u.count x := by
    intro x hx
    have hmem : x ∈ u := List.mem_dedup.mp hx
    have := List.count_pos_iff.mpr hmem
    omega
  have hfil : ((u.dedup.filter fun x => decide (1 < u.count x)).map
        fun x => u.count x - 1).sum
      = (u.dedup.map fun x => u.count x - 1).sum := by
    apply sum_map_filter_of_zero
    intro x hx hpx
    have h1 := hpos x hx
    have h2 : ¬ (1 < u.count x) := by simpa using hpx
    omega
  have hsub : (u.dedup.map fun x => u.count x).sum
      = (u.dedup.map fun x => u.count x - 1).sum + u.dedup.length :=
    sum_map_sub_one u.dedup (fun x => u.count x) hpos
  omega

/-- C7: the generated retry script includes exactly the failed records whose
error category is not one of `404_Not_Found`, `403_Forbidden`,
`401_Unauthorized`. -/
theorem generate_retry_script_exact (failed_urls : List FailedRecord) (r : FailedRecord) :
    r ∈ generate_retry_script failed_urls ↔
      r ∈ failed_urls ∧ r.error_category ∉ no_retry_categories := by
  unfold generate_retry_script
  simp [List.mem_filter]

theorem splitOnCharAux_some {c : Char} :
    ∀ {s pre post : List Char}, splitOnCharAux c s = some (pre, post) →
      c ∉ pre ∧ s = pre ++ c :: post := by
  intro s
  induction s with
  | nil => intro pre post h; cases h
  | cons a rest ih =>
    intro pre post h
    by_cases hac : a == c
    · simp only [splitOnCharAux, hac, if_true, Option.some.injEq, Prod.mk.injEq] at h
      obtain ⟨hpre, hpost⟩ := h
      subst hpre; subst hpost
      exact ⟨List.not_mem_nil c, by simp [beq_iff_eq.mp hac]⟩
    · simp only [splitOnCharAux, hac, if_false, Bool.false_eq_true] at h
      cases haux : splitOnCharAux c rest with
      | none => rw [haux] at h; cases h
      | some pq =>
        obtain ⟨p, q⟩ := pq
        rw [haux] at h
        simp only [Option.some.injEq, Prod.mk.injEq] at h
        obtain ⟨hpre, hpost⟩ := h
        obtain ⟨hnotmem, hdecomp⟩ := ih haux
        subst hpre; subst hpost
        constructor
        · intro hmem
          rcases List.mem_cons.mp hmem with heq | hmem2
          · exact absurd (beq_iff_eq.mpr heq.symm) hac
          · exact hnotmem hmem2
        · rw [List.cons_append, ← hdecomp]

theorem splitOnCharAux_none {c : Char} :
    ∀ {s : List Char}, splitOnCharAux c s = none → c ∉ s := by
  intro s
  induction s with
  | nil => intro _ h; cases h
  | cons a rest ih =>
    intro h hmem
    by_cases hac : a == c
    · simp [splitOnCharAux, hac] at h
    · simp only [splitOnCharAux, hac, if_false, Bool.false_eq_true] at h
      cases haux : splitOnCharAux c rest with
      | none =>
        rcases List.mem_cons.mp hmem with heq | hmem2
        · exact absurd (beq_iff_eq.mpr heq.symm) hac
        · exact ih haux hmem2
      | some pq => obtain ⟨p, q⟩ := pq; rw [haux] at h; cases h

theorem splitOnChar_fst_not_mem (c : Char) (s : List Char) :
    c ∉ (splitOnChar c s).1 := by
  unfold splitOnChar
  cases haux : splitOnCharAux c s with
  | none => exact splitOnCharAux_none haux
  | some pq => obtain ⟨p, q⟩ := pq; exact (splitOnCharAux_some haux).1

theorem splitOnChar_fst_subset (c : Char) (s : List Char) :
    (splitOnChar c s).1 ⊆ s := by
  unfold splitOnChar
  cases haux : splitOnCharAux c s with
  | none => exact fun x hx => hx
  | some pq =>
    obtain ⟨p, q⟩ := pq
    rw [(splitOnCharAux_some haux).2]
    exact List.subset_append_left p (c :: q)

theorem toLower_ne_qh {x : Char} (hx : isSchemeChar x = true) :
    Char.toLower x ≠ '?' ∧ Char.toLower x ≠ '#' := by
  unfold Char.toLower
  dsimp only
  by_cases hr : x.toNat ≥ 65 ∧ x.toNat ≤ 90
  · rw [if_pos hr]
    have h91 : x.toNat < 91 := by omega
    have key : ∀ n, n < 91 → 65 ≤ n →
        Char.ofNat (n + 32) ≠ '?' ∧ Char.ofNat (n + 32) ≠ '#' := by decide
    exact key x.toNat h91 hr.1
  · rw [if_neg hr]
    constructor <;> intro he <;> rw [he] at hx <;> exact absurd hx (by decide)

theorem splitScheme_fst_mem {s : List Char} {y : Char}
    (h : y ∈ (splitScheme s).1) : y ≠ '?' ∧ y ≠ '#' := by
  unfold splitScheme at h
  cases haux : splitOnCharAux ':' s with
  | none => rw [haux] at h; cases h
  | some pq =>
    obtain ⟨pre, post⟩ := pq
    rw [haux] at h
    dsimp only at h
    cases pre with
    | nil => cases h
    | cons c0 pr =>
      dsimp only at h
      by_cases hcond : (c0.isAlpha && (c0 :: pr).all isSchemeChar) = true
      · rw [if_pos hcond] at h
        dsimp only at h
        obtain ⟨x, hx, hxy⟩ := List.mem_map.mp h
        simp only [Bool.and_eq_true] at hcond
        have hall := (List.all_eq_true.mp hcond.2) x hx
        rw [← hxy]
        exact toLower_ne_qh hall
      · rw [if_neg hcond] at h
        dsimp only at h
        cases h

theorem splitNetloc_fst_mem {s : List Char} {y : Char}
    (h : y ∈ (splitNetlocParts s).1) : y ≠ '?' ∧ y ≠ '#' := by
  unfold splitNetlocParts at h
  split at h
  · dsimp only at h
    have hp := List.mem_takeWhile_imp h
    simp only [Bool.not_eq_eq_eq_not, Bool.not_true, Bool.or_eq_false_iff,
      beq_eq_false_iff_ne, ne_eq] at hp
    exact ⟨hp.1.2, hp.2⟩
  · cases h

theorem pyUrlsplit_scheme_mem {u : String} {y : Char}
    (h : y ∈ (pyUrlsplit u).scheme.data) : y ≠ '?' ∧ y ≠ '#' := by
  unfold pyUrlsplit at h
  dsimp only at h
  exact splitScheme_fst_mem h

theorem pyUrlsplit_netloc_mem {u : String} {y : Char}
    (h : y ∈ (pyUrlsplit u).netloc.data) : y ≠ '?' ∧ y ≠ '#' := by
  unfold pyUrlsplit at h
  dsimp only at h
  exact splitNetloc_fst_mem h

theorem pyUrlsplit_path_mem {u : String} {y : Char}
    (h : y ∈ (pyUrlsplit u).path.data) : y ≠ '?' ∧ y ≠ '#' := by
  unfold pyUrlsplit at h
  dsimp only at h
  constructor
  · intro he; subst he
    exact splitOnChar_fst_not_mem '?' _ h
  · intro he; subst he
    exact splitOnChar_fst_not_mem '#' _ (splitOnChar_fst_subset '?' _ h)

theorem splitParams_fst_subset (p : List Char) : (splitParams p).1 ⊆ p := by
  unfold splitParams
  split
  · cases hr : rfindIdx '/' p with
    | none => exact fun x hx => hx
    | some j =>
      dsimp only
      cases hf : findFrom ';' p j with
      | none => exact fun x hx => hx
      | some i =>
        dsimp only
        exact List.take_subset i p
  · cases haux : splitOnCharAux ';' p with
    | none => exact fun x hx => hx
    | some pq =>
      obtain ⟨pre, post⟩ := pq
      dsimp only
      rw [(splitOnCharAux_some haux).2]
      exact List.subset_append_left pre (';' :: post)

theorem pyUrlparse_scheme (u : String) :
    (pyUrlparse u).scheme = (pyUrlsplit u).scheme := by
  unfold pyUrlparse
  dsimp only
  split <;> rfl

theorem pyUrlparse_netloc (u : String) :
    (pyUrlparse u).netloc = (pyUrlsplit u).netloc := by
  unfold pyUrlparse
  dsimp only
  split <;> rfl

theorem pyUrlparse_path_subset (u : String) :
    (pyUrlparse u).path.data ⊆ (pyUrlsplit u).path.data := by
  unfold pyUrlparse
  dsimp only
  split
  · exact splitParams_fst_subset _
  · exact fun x hx => hx

theorem replaceAll_nil_subset (pat : List Char) :
    ∀ (fuel : Nat) (s : List Char) {x : Char}, x ∈ replaceAll pat [] fuel s → x ∈ s := by
  intro fuel
  induction fuel with
  | zero =>
    intro s x h
    cases s with
    | nil => cases h
    | cons c rest => exact h
  | succ n ih =>
    intro s x h
    cases s with
    | nil => cases h
    | cons c rest =>
      unfold replaceAll at h
      split at h
      · rw [List.nil_append] at h
        exact List.drop_subset _ _ (ih _ h)
      · rcases List.mem_cons.mp h with heq | hmem
        · exact heq ▸ List.mem_cons_self c rest
        · exact List.mem_cons_of_mem c (ih _ hmem)

theorem containsSub_single {c : Char} :
    ∀ {s : List Char}, containsSub s [c] = true → c ∈ s := by
  intro s
  induction s with
  | nil => intro h; cases h
  | cons d ds ih =>
    intro h
    have hrw : containsSub (d :: ds) [c]
        = ((c == d && startsWithList [] ds) || containsSub ds [c]) := rfl
    rw [hrw] at h
    simp only [startsWithList, Bool.and_true, Bool.or_eq_true] at h
    rcases h with h | h
    · exact List.mem_cons.mpr (Or.inl (beq_iff_eq.mp h))
    · exact List.mem_cons_of_mem d (ih h)

theorem pyRstripSlash_subset (s : String) {x : Char}
    (h : x ∈ (pyRstripSlash s).data) : x ∈ s.data := by
  unfold pyRstripSlash at h
  dsimp only at h
  rw [List.mem_reverse] at h
  have hsub : List.Sublist (List.dropWhile (fun c => c == '/') s.data.reverse)
      s.data.reverse := List.dropWhile_sublist _
  exact List.mem_reverse.mp (hsub.subset h)

theorem canonicalize_url_no_mark (url : String) {c : Char} (hc : c = '?' ∨ c = '#') :
    c ∉ (canonicalize_url url).data := by
  intro hmem
  have hslash : c ≠ '/' := by rcases hc with h | h <;> subst h <;> decide
  unfold canonicalize_url at hmem
  dsimp only at hmem
  rw [String.data_append, String.data_append, String.data_append] at hmem
  rcases List.mem_append.mp hmem with hABC | hD
  on_goal 1 => rcases List.mem_append.mp hABC with hAB | hC
  on_goal 1 => rcases List.mem_append.mp hAB with hA | hB
  · by_cases hcond : (pyUrlparse (pyLower url)).scheme = ""
    · rw [if_pos hcond] at hA
      rcases hc with h | h <;> subst h <;> exact absurd hA (by decide)
    · rw [if_neg hcond] at hA
      rw [pyUrlparse_scheme] at hA
      have := pyUrlsplit_scheme_mem hA
      rcases hc with h | h <;> subst h
      · exact this.1 rfl
      · exact this.2 rfl
  · rcases hc with h | h <;> subst h <;> exact absurd hB (by decide)
  · have h2 : c ∈ (pyUrlparse (pyLower url)).netloc.data := by
      unfold pyReplace at hC
      dsimp only at hC
      exact replaceAll_nil_subset _ _ _ hC
    rw [pyUrlparse_netloc] at h2
    have := pyUrlsplit_netloc_mem h2
    rcases hc with h | h <;> subst h
    · exact this.1 rfl
    · exact this.2 rfl
  · by_cases hcond : pyRstripSlash (pyUrlparse (pyLower url)).path = ""
    · rw [if_pos hcond] at hD
      exact hslash (List.mem_singleton.mp hD)
    · rw [if_neg hcond] at hD
      have h2 := pyRstripSlash_subset _ hD
      have h3 := pyUrlparse_path_subset _ h2
      have := pyUrlsplit_path_mem h3
      rcases hc with h | h <;> subst h
      · exact this.1 rfl
      · exact this.2 rfl

/-- C6 (amended): `canonicalize_url` returns
`scheme ++ "://" ++ host ++ path` where the scheme defaults to `https` when
absent, the host is the parsed netloc with every non-overlapping occurrence
of `"www."` deleted left to right, the path is the parsed path with its
trailing slashes stripped (a bare host canonicalizes to path `"/"`), and
the result contains no query and no fragment (no `?` and no `#` character
survives). -/
theorem canonicalize_url_spec (url : String) :
    (canonicalize_url url =
      (if (pyUrlparse (pyLower url)).scheme = "" then "https"
       else (pyUrlparse (pyLower url)).scheme) ++ "://" ++
      pyReplace (pyUrlparse (pyLower url)).netloc "www." "" ++
      (if pyRstripSlash (pyUrlparse (pyLower url)).path = "" then "/"
       else pyRstripSlash (pyUrlparse (pyLower url)).path)) ∧
    pyContains (canonicalize_url url) "?" = false ∧
    pyContains (canonicalize_url url) "#" = false := by
  refine ⟨rfl, ?_, ?_⟩
  · cases hb : pyContains (canonicalize_url url) "?" with
    | false => rfl
    | true =>
      have hm : '?' ∈ (canonicalize_url url).data := containsSub_single hb
      exact absurd hm (canonicalize_url_no_mark url (Or.inl rfl))
  · cases hb : pyContains (canonicalize_url url) "#" with
    | false => rfl
    | true =>
      have hm : '#' ∈ (canonicalize_url url).data := containsSub_single hb
      exact absurd hm (canonicalize_url_no_mark url (Or.inr rfl))

/-- C6 counterexample: the claim "the host contains no `www.`" fails.
Python's `replace` deletes non-overlapping occurrences left to right, and
deleting `www.` from the netloc `wwwww.w.x` re-creates a `www.`: the
canonical form of `http://wwwww.w.x/a` is `http://www.x/a`, whose host
still contains `www.`. -/
theorem canonicalize_url_www_counterexample :
    canonicalize_url "http://wwwww.w.x/a" = "http://www.x/a" ∧
    pyReplace (pyUrlparse (pyLower "http://wwwww.w.x/a")).netloc "www." "" = "www.x" ∧
    pyContains "www.x" "www." = true := by
  refine ⟨by decide, by decide, by decide⟩

theorem addDomain_trace (st : ScrapeState) (d : String) :
    (addDomain st d).trace = st.trace := by
  unfold addDomain; split <;> rfl

theorem addDomain_domains (st : ScrapeState) (d : String) :
    st.seleniumDomains ⊆ (addDomain st d).seleniumDomains := by
  unfold addDomain
  split
  · exact fun x hx => hx
  · exact List.subset_append_left _ _

theorem sel_fallback_trace (env : FetchEnv) (st : ScrapeState) :
    ∃ e, isSelEvent e = true ∧
      (scrape_with_selenium_fallback env st).2.trace = st.trace ++ [e] := by
  unfold scrape_with_selenium_fallback
  dsimp only
  cases h : env.selenium (countSel st.trace) with
  | ok a =>
    refine ⟨FetchEvent.selenium (countSel st.trace) (Except.ok ()), rfl, ?_⟩
    simp [h, pushEvent]
  | error e =>
    refine ⟨FetchEvent.selenium (countSel st.trace) (Except.error e), rfl, ?_⟩
    simp [h, pushEvent]

theorem sel_fallback_domains (env : FetchEnv) (st : ScrapeState) :
    (scrape_with_selenium_fallback env st).2.seleniumDomains = st.seleniumDomains := by
  unfold scrape_with_selenium_fallback
  dsimp only
  cases h : env.selenium (countSel st.trace) <;> simp [h, pushEvent]

theorem countCloud_append (a b : List FetchEvent) :
    countCloud (a ++ b) = countCloud a + countCloud b := by
  unfold countCloud; rw [List.filter_append, List.length_append]

theorem countSel_append (a b : List FetchEvent) :
    countSel (a ++ b) = countSel a + countSel b := by
  unfold countSel; rw [List.filter_append, List.length_append]

theorem countCloud_single_not (e : FetchEvent) (he : isCloudEvent e = false) :
    countCloud [e] = 0 := by
  unfold countCloud
  rw [List.filter_cons, he]
  rfl

theorem isSel_not_cloud (e : FetchEvent) (he : isSelEvent e = true) :
    isCloudEvent e = false := by
  cases e <;> simp [isSelEvent, isCloudEvent] at he ⊢

theorem countCloud_cloudGet (k : Nat) (o : Except String String) :
    countCloud [FetchEvent.cloudGet k o] = 1 := rfl

theorem countCloud_sleep : countCloud [FetchEvent.sleepRetry] = 0 := rfl

theorem pushEvent_trace (st : ScrapeState) (e : FetchEvent) :
    (pushEvent st e).trace = st.trace ++ [e] := rfl

theorem pushEvent_domains (st : ScrapeState) (e : FetchEvent) :
    (pushEvent st e).seleniumDomains = st.seleniumDomains := rfl

theorem scrape_html_invariants (env : FetchEnv) (url : String) :
    ∀ (retries : Nat) (st : ScrapeState),
      st.seleniumDomains ⊆ ((scrape_html env url retries st).2).seleniumDomains ∧
      (∃ tl, ((scrape_html env url retries st).2).trace = st.trace ++ tl) ∧
      countCloud ((scrape_html env url retries st).2).trace
        ≤ countCloud st.trace + (MAX_RETRIES - retries) + 1 := by
  intro retries st
  induction retries, st using scrape_html.induct with
  | env => exact env
  | url => exact url
  | case1 retries st domain hdom =>
    unfold scrape_html
    dsimp only
    rw [if_pos hdom]
    obtain ⟨e, he, hs⟩ := sel_fallback_trace env st
    refine ⟨?_, ⟨[e], hs⟩, ?_⟩
    · rw [sel_fallback_domains]
      exact fun x hx => hx
    · rw [hs, countCloud_append, countCloud_single_not e (isSel_not_cloud e he)]
      omega
  | case2 retries st domain hnotdom body hcg st1 hch b st2 hsel =>
    unfold scrape_html
    dsimp only
    rw [if_neg hnotdom, hcg]
    dsimp only
    rw [if_pos hch, hsel]
    have h2 := congrArg Prod.snd hsel
    dsimp only at h2
    obtain ⟨e, he, hs⟩ := sel_fallback_trace env (addDomain st1 domain)
    rw [h2] at hs
    have hdm := sel_fallback_domains env (addDomain st1 domain)
    rw [h2] at hdm
    refine ⟨?_, ?_, ?_⟩
    · rw [hdm]
      exact addDomain_domains st1 domain
    · have hst1 : st1.trace
          = st.trace ++ [FetchEvent.cloudGet (countCloud st.trace) (Except.ok body)] := rfl
      rw [hs, addDomain_trace, hst1]
      exact ⟨[FetchEvent.cloudGet (countCloud st.trace) (Except.ok body), e], by simp⟩
    · have hst1 : st1.trace
          = st.trace ++ [FetchEvent.cloudGet (countCloud st.trace) (Except.ok body)] := rfl
      rw [hs, addDomain_trace, countCloud_append,
        countCloud_single_not e (isSel_not_cloud e he), hst1, countCloud_append]
      simp [countCloud, isCloudEvent]
  | case3 retries st domain hnotdom body hcg st1 hch se st2 hsel hkw =>
    unfold scrape_html
    dsimp only
    rw [if_neg hnotdom, hcg]
    dsimp only
    rw [if_pos hch, hsel]
    dsimp only
    rw [if_pos hkw]
    have h2 := congrArg Prod.snd hsel
    dsimp only at h2
    obtain ⟨e1, he1, hs1⟩ := sel_fallback_trace env (addDomain st1 domain)
    rw [h2] at hs1
    have hdm1 := sel_fallback_domains env (addDomain st1 domain)
    rw [h2] at hdm1
    obtain ⟨e2, he2, hs2⟩ := sel_fallback_trace env (addDomain st2 domain)
    have hdm2 := sel_fallback_domains env (addDomain st2 domain)
    refine ⟨?_, ?_, ?_⟩
    · rw [hdm2]
      intro x hx
      exact addDomain_domains st2 domain
        (hdm1 ▸ addDomain_domains st1 domain hx)
    · have hst1 : st1.trace
          = st.trace ++ [FetchEvent.cloudGet (countCloud st.trace) (Except.ok body)] := rfl
      rw [hs2, addDomain_trace, hs1, addDomain_trace, hst1]
      exact ⟨[FetchEvent.cloudGet (countCloud st.trace) (Except.ok body), e1, e2], by simp⟩
    · have hst1 : st1.trace
          = st.trace ++ [FetchEvent.cloudGet (countCloud st.trace) (Except.ok body)] := rfl
      rw [hs2, addDomain_trace, countCloud_append,
        countCloud_single_not e2 (isSel_not_cloud e2 he2), hs1, addDomain_trace,
        countCloud_append, countCloud_single_not e1 (isSel_not_cloud e1 he1),
        hst1, countCloud_append]
      simp [countCloud, isCloudEvent]
  | case4 retries st domain hnotdom body hcg st1 hch se st2 hsel hkw hret ih =>
    unfold scrape_html
    dsimp only
    rw [if_neg hnotdom, hcg]
    dsimp only
    rw [if_pos hch, hsel]
    dsimp only
    rw [if_neg hkw, dif_pos hret]
    obtain ⟨ihd, ⟨tl, iht⟩, ihc⟩ := ih
    have h2 := congrArg Prod.snd hsel
    dsimp only at h2
    obtain ⟨e1, he1, hs1⟩ := sel_fallback_trace env (addDomain st1 domain)
    rw [h2] at hs1
    have hdm1 := sel_fallback_domains env (addDomain st1 domain)
    rw [h2] at hdm1
    refine ⟨?_, ?_, ?_⟩
    · intro x hx
      apply ihd
      rw [pushEvent_domains, hdm1]
      exact addDomain_domains st1 domain hx
    · have hst1 : st1.trace
          = st.trace ++ [FetchEvent.cloudGet (countCloud st.trace) (Except.ok body)] := rfl
      rw [iht, pushEvent_trace, hs1, addDomain_trace, hst1]
      exact ⟨[FetchEvent.cloudGet (countCloud st.trace) (Except.ok body), e1,
        FetchEvent.sleepRetry] ++ tl, by simp⟩
    · have hst1 : st1.trace
          = st.trace ++ [FetchEvent.cloudGet (countCloud st.trace) (Except.ok body)] := rfl
      have hc1 : countCloud (pushEvent st2 FetchEvent.sleepRetry).trace
          = countCloud st.trace + 1 := by
        rw [pushEvent_trace, countCloud_append, hs1, addDomain_trace,
          countCloud_append, countCloud_single_not e1 (isSel_not_cloud e1 he1),
          countCloud_sleep, hst1, countCloud_append]
        simp [countCloud, isCloudEvent]
      rw [hc1] at ihc
      omega
  | case5 retries st domain hnotdom body hcg st1 hch se st2 hsel hkw hnret =>
    unfold scrape_html
    dsimp only
    rw [if_neg hnotdom, hcg]
    dsimp only
    rw [if_pos hch, hsel]
    dsimp only
    rw [if_neg hkw, dif_neg hnret]
    have h2 := congrArg Prod.snd hsel
    dsimp only at h2
    obtain ⟨e1, he1, hs1⟩ := sel_fallback_trace env (addDomain st1 domain)
    rw [h2] at hs1
    have hdm1 := sel_fallback_domains env (addDomain st1 domain)
    rw [h2] at hdm1
    refine ⟨?_, ?_, ?_⟩
    · intro x hx
      rw [hdm1]
      exact addDomain_domains st1 domain hx
    · have hst1 : st1.trace
          = st.trace ++ [FetchEvent.cloudGet (countCloud st.trace) (Except.ok body)] := rfl
      rw [hs1, addDomain_trace, hst1]
      exact ⟨[FetchEvent.cloudGet (countCloud st.trace) (Except.ok body), e1], by simp⟩
    · have hst1 : st1.trace
          = st.trace ++ [FetchEvent.cloudGet (countCloud st.trace) (Except.ok body)] := rfl
      rw [hs1, addDomain_trace, countCloud_append,
        countCloud_single_not e1 (isSel_not_cloud e1 he1), hst1, countCloud_append]
      simp [countCloud, isCloudEvent]
  | case6 retries st domain hnotdom body hcg hch text hshort hkw =>
    unfold scrape_html
    dsimp only
    rw [if_neg hnotdom, hcg]
    dsimp only
    rw [if_neg hch]
    rw [if_pos hshort, if_pos hkw]
    obtain ⟨e1, he1, hs1⟩ := sel_fallback_trace env
      (addDomain (pushEvent st (FetchEvent.cloudGet (countCloud st.trace) (Except.ok body))) domain)
    have hdm1 := sel_fallback_domains env
      (addDomain (pushEvent st (FetchEvent.cloudGet (countCloud st.trace) (Except.ok body))) domain)
    refine ⟨?_, ?_, ?_⟩
    · intro x hx
      rw [hdm1]
      exact addDomain_domains _ domain hx
    · rw [hs1, addDomain_trace]
      exact ⟨[FetchEvent.cloudGet (countCloud st.trace) (Except.ok body), e1],
        by simp [pushEvent]⟩
    · rw [hs1, addDomain_trace, countCloud_append,
        countCloud_single_not e1 (isSel_not_cloud e1 he1)]
      have h1 : countCloud (pushEvent st (FetchEvent.cloudGet (countCloud st.trace)
          (Except.ok body))).trace = countCloud st.trace + 1 := by
        simp [pushEvent, countCloud_append, countCloud, isCloudEvent]
      omega
  | case7 retries st domain hnotdom body hcg st1 hch text hshort hkw hret ih =>
    unfold scrape_html
    dsimp only
    rw [if_neg hnotdom, hcg]
    dsimp only
    rw [if_neg hch]
    rw [if_pos hshort, if_neg hkw, dif_pos hret]
    obtain ⟨ihd, ⟨tl, iht⟩, ihc⟩ := ih
    refine ⟨?_, ?_, ?_⟩
    · intro x hx
      exact ihd hx
    · have hst1 : st1.trace
          = st.trace ++ [FetchEvent.cloudGet (countCloud st.trace) (Except.ok body)] := rfl
      rw [iht, pushEvent_trace, hst1]
      exact ⟨[FetchEvent.cloudGet (countCloud st.trace) (Except.ok body),
        FetchEvent.sleepRetry] ++ tl, by simp⟩
    · have hst1 : st1.trace
          = st.trace ++ [FetchEvent.cloudGet (countCloud st.trace) (Except.ok body)] := rfl
      have hc1 : countCloud (pushEvent st1 FetchEvent.sleepRetry).trace
          = countCloud st.trace + 1 := by
        rw [pushEvent_trace, countCloud_append, hst1, countCloud_append]
        simp [countCloud, isCloudEvent]
      rw [hc1] at ihc
      have hsx : st1 = pushEvent st (FetchEvent.cloudGet (countCloud st.trace)
        (Except.ok body)) := rfl
      rw [hsx] at ihc
      omega
  | case8 retries st domain hnotdom body hcg hch text hshort hkw hnret =>
    unfold scrape_html
    dsimp only
    rw [if_neg hnotdom, hcg]
    dsimp only
    rw [if_neg hch]
    rw [if_pos hshort, if_neg hkw, dif_neg hnret]
    refine ⟨fun x hx => hx, ?_, ?_⟩
    · exact ⟨[FetchEvent.cloudGet (countCloud st.trace) (Except.ok body)],
        by simp [pushEvent]⟩
    · have h1 : countCloud (pushEvent st (FetchEvent.cloudGet (countCloud st.trace)
          (Except.ok body))).trace = countCloud st.trace + 1 := by
        simp [pushEvent, countCloud_append, countCloud, isCloudEvent]
      rw [h1]
      omega
  | case9 retries st domain hnotdom body hcg hch text hnshort =>
    unfold scrape_html
    dsimp only
    rw [if_neg hnotdom, hcg]
    dsimp only
    rw [if_neg hch]
    rw [if_neg hnshort]
    refine ⟨fun x hx => hx, ?_, ?_⟩
    · exact ⟨[FetchEvent.cloudGet (countCloud st.trace) (Except.ok body)],
        by simp [pushEvent]⟩
    · have h1 : countCloud (pushEvent st (FetchEvent.cloudGet (countCloud st.trace)
          (Except.ok body))).trace = countCloud st.trace + 1 := by
        simp [pushEvent, countCloud_append, countCloud, isCloudEvent]
      rw [h1]
      omega
  | case10 retries st domain hnotdom e hcg hkw =>
    unfold scrape_html
    dsimp only
    rw [if_neg hnotdom, hcg]
    dsimp only
    rw [if_pos hkw]
    obtain ⟨e1, he1, hs1⟩ := sel_fallback_trace env
      (addDomain (pushEvent st (FetchEvent.cloudGet (countCloud st.trace) (Except.error e))) domain)
    have hdm1 := sel_fallback_domains env
      (addDomain (pushEvent st (FetchEvent.cloudGet (countCloud st.trace) (Except.error e))) domain)
    refine ⟨?_, ?_, ?_⟩
    · intro x hx
      rw [hdm1]
      exact addDomain_domains _ domain hx
    · rw [hs1, addDomain_trace]
      exact ⟨[FetchEvent.cloudGet (countCloud st.trace) (Except.error e), e1],
        by simp [pushEvent]⟩
    · rw [hs1, addDomain_trace, countCloud_append,
        countCloud_single_not e1 (isSel_not_cloud e1 he1)]
      have h1 : countCloud (pushEvent st (FetchEvent.cloudGet (countCloud st.trace)
          (Except.error e))).trace = countCloud st.trace + 1 := by
        simp [pushEvent, countCloud_append, countCloud, isCloudEvent]
      omega
  | case11 retries st domain hnotdom e hcg st1 hkw hret ih =>
    unfold scrape_html
    dsimp only
    rw [if_neg hnotdom, hcg]
    dsimp only
    rw [if_neg hkw, dif_pos hret]
    obtain ⟨ihd, ⟨tl, iht⟩, ihc⟩ := ih
    refine ⟨?_, ?_, ?_⟩
    · intro x hx
      exact ihd hx
    · have hst1 : st1.trace
          = st.trace ++ [FetchEvent.cloudGet (countCloud st.trace) (Except.error e)] := rfl
      rw [iht, pushEvent_trace, hst1]
      exact ⟨[FetchEvent.cloudGet (countCloud st.trace) (Except.error e),
        FetchEvent.sleepRetry] ++ tl, by simp⟩
    · have hst1 : st1.trace
          = st.trace ++ [FetchEvent.cloudGet (countCloud st.trace) (Except.error e)] := rfl
      have hc1 : countCloud (pushEvent st1 FetchEvent.sleepRetry).trace
          = countCloud st.trace + 1 := by
        rw [pushEvent_trace, countCloud_append, hst1, countCloud_append]
        simp [countCloud, isCloudEvent]
      rw [hc1] at ihc
      have hsx : st1 = pushEvent st (FetchEvent.cloudGet (countCloud st.trace)
        (Except.error e)) := rfl
      rw [hsx] at ihc
      omega
  | case12 retries st domain hnotdom e hcg hkw hnret =>
    unfold scrape_html
    dsimp only
    rw [if_neg hnotdom, hcg]
    dsimp only
    rw [if_neg hkw, dif_neg hnret]
    refine ⟨fun x hx => hx, ?_, ?_⟩
    · exact ⟨[FetchEvent.cloudGet (countCloud st.trace) (Except.error e)],
        by simp [pushEvent]⟩
    · have h1 : countCloud (pushEvent st (FetchEvent.cloudGet (countCloud st.trace)
          (Except.error e))).trace = countCloud st.trace + 1 := by
        simp [pushEvent, countCloud_append, countCloud, isCloudEvent]
      rw [h1]
      omega

theorem countSel_single_not (e : FetchEvent) (he : isSelEvent e = false) :
    countSel [e] = 0 := by
  unfold countSel
  rw [List.filter_cons, he]
  rfl

theorem countSel_single_sel (e : FetchEvent) (he : isSelEvent e = true) :
    countSel [e] = 1 := by
  unfold countSel
  rw [List.filter_cons, he]
  rfl

/-- If a run of `scrape_html` performs no Selenium attempt, then no
response it received was a detected challenge page: challenge detection
always triggers the Selenium fallback. -/
theorem scrape_html_no_sel_no_challenge (env : FetchEnv) (url : String) :
    ∀ (retries : Nat) (st : ScrapeState),
      countSel ((scrape_html env url retries st).2).trace = countSel st.trace →
      ∀ ev ∈ ((scrape_html env url retries st).2).trace,
        ev ∈ st.trace ∨ isChallengeOk ev = false := by
  intro retries st
  induction retries, st using scrape_html.induct with
  | env => exact env
  | url => exact url
  | case1 retries st domain hdom =>
    intro hsel ev _
    exfalso
    unfold scrape_html at hsel
    dsimp only at hsel
    rw [if_pos hdom] at hsel
    obtain ⟨e, he, hs⟩ := sel_fallback_trace env st
    rw [hs, countSel_append, countSel_single_sel e he] at hsel
    omega
  | case2 retries st domain hnotdom body hcg st1 hch b st2 hsel2 =>
    intro hsel ev _
    exfalso
    unfold scrape_html at hsel
    dsimp only at hsel
    rw [if_neg hnotdom, hcg] at hsel
    dsimp only at hsel
    rw [if_pos hch, hsel2] at hsel
    have h2 := congrArg Prod.snd hsel2
    dsimp only at h2
    obtain ⟨e, he, hs⟩ := sel_fallback_trace env (addDomain st1 domain)
    rw [h2] at hs
    have hst1 : st1.trace
        = st.trace ++ [FetchEvent.cloudGet (countCloud st.trace) (Except.ok body)] := rfl
    rw [hs, addDomain_trace, hst1, countSel_append, countSel_append,
      countSel_single_sel e he] at hsel
    omega
  | case3 retries st domain hnotdom body hcg st1 hch se st2 hsel2 hkw =>
    intro hsel ev _
    exfalso
    unfold scrape_html at hsel
    dsimp only at hsel
    rw [if_neg hnotdom, hcg] at hsel
    dsimp only at hsel
    rw [if_pos hch, hsel2] at hsel
    dsimp only at hsel
    rw [if_pos hkw] at hsel
    have h2 := congrArg Prod.snd hsel2
    dsimp only at h2
    obtain ⟨e1, he1, hs1⟩ := sel_fallback_trace env (addDomain st1 domain)
    rw [h2] at hs1
    obtain ⟨e2, he2, hs2⟩ := sel_fallback_trace env (addDomain st2 domain)
    have hst1 : st1.trace
        = st.trace ++ [FetchEvent.cloudGet (countCloud st.trace) (Except.ok body)] := rfl
    rw [hs2, addDomain_trace, hs1, addDomain_trace, hst1, countSel_append,
      countSel_append, countSel_append, countSel_single_sel e1 he1] at hsel
    omega
  | case4 retries st domain hnotdom body hcg st1 hch se st2 hsel2 hkw hret ih =>
    intro hsel ev _
    exfalso
    unfold scrape_html at hsel
    dsimp only at hsel
    rw [if_neg hnotdom, hcg] at hsel
    dsimp only at hsel
    rw [if_pos hch, hsel2] at hsel
    dsimp only at hsel
    rw [if_neg hkw, dif_pos hret] at hsel
    obtain ⟨_, ⟨tl, iht⟩, _⟩ := scrape_html_invariants env url (retries + 1)
      (pushEvent st2 FetchEvent.sleepRetry)
    have h2 := congrArg Prod.snd hsel2
    dsimp only at h2
    obtain ⟨e1, he1, hs1⟩ := sel_fallback_trace env (addDomain st1 domain)
    rw [h2] at hs1
    have hst1 : st1.trace
        = st.trace ++ [FetchEvent.cloudGet (countCloud st.trace) (Except.ok body)] := rfl
    rw [iht, pushEvent_trace, hs1, addDomain_trace, hst1] at hsel
    rw [countSel_append, countSel_append, countSel_append, countSel_append,
      countSel_single_sel e1 he1] at hsel
    omega
  | case5 retries st domain hnotdom body hcg st1 hch se st2 hsel2 hkw hnret =>
    intro hsel ev _
    exfalso
    unfold scrape_html at hsel
    dsimp only at hsel
    rw [if_neg hnotdom, hcg] at hsel
    dsimp only at hsel
    rw [if_pos hch, hsel2] at hsel
    dsimp only at hsel
    rw [if_neg hkw, dif_neg hnret] at hsel
    have h2 := congrArg Prod.snd hsel2
    dsimp only at h2
    obtain ⟨e1, he1, hs1⟩ := sel_fallback_trace env (addDomain st1 domain)
    rw [h2] at hs1
    have hst1 : st1.trace
        = st.trace ++ [FetchEvent.cloudGet (countCloud st.trace) (Except.ok body)] := rfl
    rw [hs1, addDomain_trace, hst1, countSel_append, countSel_append,
      countSel_single_sel e1 he1] at hsel
    omega
  | case6 retries st domain hnotdom body hcg hch text hshort hkw =>
    intro hsel ev _
    exfalso
    unfold scrape_html at hsel
    dsimp only at hsel
    rw [if_neg hnotdom, hcg] at hsel
    dsimp only at hsel
    rw [if_neg hch] at hsel
    rw [if_pos hshort, if_pos hkw] at hsel
    obtain ⟨e1, he1, hs1⟩ := sel_fallback_trace env
      (addDomain (pushEvent st (FetchEvent.cloudGet (countCloud st.trace) (Except.ok body))) domain)
    rw [hs1, addDomain_trace, pushEvent_trace, countSel_append, countSel_append,
      countSel_single_sel e1 he1] at hsel
    omega
  | case7 retries st domain hnotdom body hcg st1 hch text hshort hkw hret ih =>
    intro hsel ev hev
    unfold scrape_html at hsel hev
    dsimp only at hsel hev
    rw [if_neg hnotdom, hcg] at hsel hev
    dsimp only at hsel hev
    rw [if_neg hch] at hsel hev
    rw [if_pos hshort, if_neg hkw, dif_pos hret] at hsel hev
    have hst1 : st1.trace
        = st.trace ++ [FetchEvent.cloudGet (countCloud st.trace) (Except.ok body)] := rfl
    have hcount : countSel (pushEvent st1 FetchEvent.sleepRetry).trace
        = countSel st.trace := by
      rw [pushEvent_trace, countSel_append, hst1, countSel_append]
      simp [countSel, isSelEvent]
    have hsel' : countSel ((scrape_html env url (retries + 1)
        (pushEvent st1 FetchEvent.sleepRetry)).2).trace
        = countSel (pushEvent st1 FetchEvent.sleepRetry).trace := by
      rw [hcount]
      exact hsel
    have hres := ih hsel' ev hev
    rcases hres with hin | hok
    · rw [pushEvent_trace, hst1] at hin
      rcases List.mem_append.mp hin with hin2 | hone
      · rcases List.mem_append.mp hin2 with hin3 | hone2
        · exact Or.inl hin3
        · right
          rcases List.mem_singleton.mp hone2 with rfl
          simp [isChallengeOk, hch]
      · right
        rcases List.mem_singleton.mp hone with rfl
        rfl
    · exact Or.inr hok
  | case8 retries st domain hnotdom body hcg hch text hshort hkw hnret =>
    intro hsel ev hev
    unfold scrape_html at hev
    dsimp only at hev
    rw [if_neg hnotdom, hcg] at hev
    dsimp only at hev
    rw [if_neg hch] at hev
    rw [if_pos hshort, if_neg hkw, dif_neg hnret] at hev
    rw [pushEvent_trace] at hev
    rcases List.mem_append.mp hev with hin | hone
    · exact Or.inl hin
    · right
      rcases List.mem_singleton.mp hone with rfl
      simp [isChallengeOk, hch]
  | case9 retries st domain hnotdom body hcg hch text hnshort =>
    intro hsel ev hev
    unfold scrape_html at hev
    dsimp only at hev
    rw [if_neg hnotdom, hcg] at hev
    dsimp only at hev
    rw [if_neg hch] at hev
    rw [if_neg hnshort] at hev
    rw [pushEvent_trace] at hev
    rcases List.mem_append.mp hev with hin | hone
    · exact Or.inl hin
    · right
      rcases List.mem_singleton.mp hone with rfl
      simp [isChallengeOk, hch]
  | case10 retries st domain hnotdom e hcg hkw =>
    intro hsel ev _
    exfalso
    unfold scrape_html at hsel
    dsimp only at hsel
    rw [if_neg hnotdom, hcg] at hsel
    dsimp only at hsel
    rw [if_pos hkw] at hsel
    obtain ⟨e1, he1, hs1⟩ := sel_fallback_trace env
      (addDomain (pushEvent st (FetchEvent.cloudGet (countCloud st.trace) (Except.error e))) domain)
    rw [hs1, addDomain_trace, pushEvent_trace, countSel_append, countSel_append,
      countSel_single_sel e1 he1] at hsel
    omega
  | case11 retries st domain hnotdom e hcg st1 hkw hret ih =>
    intro hsel ev hev
    unfold scrape_html at hsel hev
    dsimp only at hsel hev
    rw [if_neg hnotdom, hcg] at hsel hev
    dsimp only at hsel hev
    rw [if_neg hkw, dif_pos hret] at hsel hev
    have hst1 : st1.trace
        = st.trace ++ [FetchEvent.cloudGet (countCloud st.trace) (Except.error e)] := rfl
    have hcount : countSel (pushEvent st1 FetchEvent.sleepRetry).trace
        = countSel st.trace := by
      rw [pushEvent_trace, countSel_append, hst1, countSel_append]
      simp [countSel, isSelEvent]
    have hsel' : countSel ((scrape_html env url (retries + 1)
        (pushEvent st1 FetchEvent.sleepRetry)).2).trace
        = countSel (pushEvent st1 FetchEvent.sleepRetry).trace := by
      rw [hcount]
      exact hsel
    have hres := ih hsel' ev hev
    rcases hres with hin | hok
    · rw [pushEvent_trace, hst1] at hin
      rcases List.mem_append.mp hin with hin2 | hone
      · rcases List.mem_append.mp hin2 with hin3 | hone2
        · exact Or.inl hin3
        · right
          rcases List.mem_singleton.mp hone2 with rfl
          rfl
      · right
        rcases List.mem_singleton.mp hone with rfl
        rfl
    · exact Or.inr hok
  | case12 retries st domain hnotdom e hcg hkw hnret =>
    intro hsel ev hev
    unfold scrape_html at hev
    dsimp only at hev
    rw [if_neg hnotdom, hcg] at hev
    dsimp only at hev
    rw [if_neg hkw, dif_neg hnret] at hev
    rw [pushEvent_trace] at hev
    rcases List.mem_append.mp hev with hin | hone
    · exact Or.inl hin
    · right
      rcases List.mem_singleton.mp hone with rfl
      rfl

/-- A failing `scrape_html` run that never touched Selenium performed all
`MAX_RETRIES` retries and re-raised the final attempt's exception. -/
theorem scrape_html_no_sel_error (env : FetchEnv) (url : String) :
    ∀ (retries : Nat) (st : ScrapeState),
      st.seleniumDomains.contains (get_domain url) = false →
      countSel ((scrape_html env url retries st).2).trace = countSel st.trace →
      ∀ e', (scrape_html env url retries st).1 = .error e' →
        countCloud ((scrape_html env url retries st).2).trace
          = countCloud st.trace + (MAX_RETRIES - retries) + 1 ∧
        e' = attemptException env (countCloud st.trace + (MAX_RETRIES - retries)) := by
  intro retries st
  induction retries, st using scrape_html.induct with
  | env => exact env
  | url => exact url
  | case1 retries st domain hdom =>
    intro hnd
    exact absurd hdom (by rw [hnd]; exact Bool.false_ne_true)
  | case2 retries st domain hnotdom body hcg st1 hch b st2 hsel2 =>
    intro _ hsel ev _
    exfalso
    unfold scrape_html at hsel
    dsimp only at hsel
    rw [if_neg hnotdom, hcg] at hsel
    dsimp only at hsel
    rw [if_pos hch, hsel2] at hsel
    have h2 := congrArg Prod.snd hsel2
    dsimp only at h2
    obtain ⟨e, he, hs⟩ := sel_fallback_trace env (addDomain st1 domain)
    rw [h2] at hs
    have hst1 : st1.trace
        = st.trace ++ [FetchEvent.cloudGet (countCloud st.trace) (Except.ok body)] := rfl
    rw [hs, addDomain_trace, hst1, countSel_append, countSel_append,
      countSel_single_sel e he] at hsel
    omega
  | case3 retries st domain hnotdom body hcg st1 hch se st2 hsel2 hkw =>
    intro _ hsel ev _
    exfalso
    unfold scrape_html at hsel
    dsimp only at hsel
    rw [if_neg hnotdom, hcg] at hsel
    dsimp only at hsel
    rw [if_pos hch, hsel2] at hsel
    dsimp only at hsel
    rw [if_pos hkw] at hsel
    have h2 := congrArg Prod.snd hsel2
    dsimp only at h2
    obtain ⟨e1, he1, hs1⟩ := sel_fallback_trace env (addDomain st1 domain)
    rw [h2] at hs1
    obtain ⟨e2, he2, hs2⟩ := sel_fallback_trace env (addDomain st2 domain)
    have hst1 : st1.trace
        = st.trace ++ [FetchEvent.cloudGet (countCloud st.trace) (Except.ok body)] := rfl
    rw [hs2, addDomain_trace, hs1, addDomain_trace, hst1, countSel_append,
      countSel_append, countSel_append, countSel_single_sel e1 he1] at hsel
    omega
  | case4 retries st domain hnotdom body hcg st1 hch se st2 hsel2 hkw hret ih =>
    intro _ hsel ev _
    exfalso
    unfold scrape_html at hsel
    dsimp only at hsel
    rw [if_neg hnotdom, hcg] at hsel
    dsimp only at hsel
    rw [if_pos hch, hsel2] at hsel
    dsimp only at hsel
    rw [if_neg hkw, dif_pos hret] at hsel
    obtain ⟨_, ⟨tl, iht⟩, _⟩ := scrape_html_invariants env url (retries + 1)
      (pushEvent st2 FetchEvent.sleepRetry)
    have h2 := congrArg Prod.snd hsel2
    dsimp only at h2
    obtain ⟨e1, he1, hs1⟩ := sel_fallback_trace env (addDomain st1 domain)
    rw [h2] at hs1
    have hst1 : st1.trace
        = st.trace ++ [FetchEvent.cloudGet (countCloud st.trace) (Except.ok body)] := rfl
    rw [iht, pushEvent_trace, hs1, addDomain_trace, hst1] at hsel
    rw [countSel_append, countSel_append, countSel_append, countSel_append,
      countSel_single_sel e1 he1] at hsel
    omega
  | case5 retries st domain hnotdom body hcg st1 hch se st2 hsel2 hkw hnret =>
    intro _ hsel ev _
    exfalso
    unfold scrape_html at hsel
    dsimp only at hsel
    rw [if_neg hnotdom, hcg] at hsel
    dsimp only at hsel
    rw [if_pos hch, hsel2] at hsel
    dsimp only at hsel
    rw [if_neg hkw, dif_neg hnret] at hsel
    have h2 := congrArg Prod.snd hsel2
    dsimp only at h2
    obtain ⟨e1, he1, hs1⟩ := sel_fallback_trace env (addDomain st1 domain)
    rw [h2] at hs1
    have hst1 : st1.trace
        = st.trace ++ [FetchEvent.cloudGet (countCloud st.trace) (Except.ok body)] := rfl
    rw [hs1, addDomain_trace, hst1, countSel_append, countSel_append,
      countSel_single_sel e1 he1] at hsel
    omega
  | case6 retries st domain hnotdom body hcg hch text hshort hkw =>
    intro _ hsel ev _
    exfalso
    unfold scrape_html at hsel
    dsimp only at hsel
    rw [if_neg hnotdom, hcg] at hsel
    dsimp only at hsel
    rw [if_neg hch] at hsel
    rw [if_pos hshort, if_pos hkw] at hsel
    obtain ⟨e1, he1, hs1⟩ := sel_fallback_trace env
      (addDomain (pushEvent st (FetchEvent.cloudGet (countCloud st.trace) (Except.ok body))) domain)
    rw [hs1, addDomain_trace, pushEvent_trace, countSel_append, countSel_append,
      countSel_single_sel e1 he1] at hsel
    omega
  | case7 retries st domain hnotdom body hcg st1 hch text hshort hkw hret ih =>
    intro hnd hsel e' hres
    unfold scrape_html at hsel hres ⊢
    dsimp only at hsel hres ⊢
    rw [if_neg hnotdom, hcg] at hsel hres ⊢
    dsimp only at hsel hres ⊢
    rw [if_neg hch] at hsel hres ⊢
    rw [if_pos hshort, if_neg hkw, dif_pos hret] at hsel hres ⊢
    have hst1 : st1.trace
        = st.trace ++ [FetchEvent.cloudGet (countCloud st.trace) (Except.ok body)] := rfl
    have hnd' : (pushEvent st1 FetchEvent.sleepRetry).seleniumDomains.contains
        (get_domain url) = false := hnd
    have hcount : countSel (pushEvent st1 FetchEvent.sleepRetry).trace
        = countSel st.trace := by
      rw [pushEvent_trace, countSel_append, hst1, countSel_append]
      simp [countSel, isSelEvent]
    have hsel' : countSel ((scrape_html env url (retries + 1)
        (pushEvent st1 FetchEvent.sleepRetry)).2).trace
        = countSel (pushEvent st1 FetchEvent.sleepRetry).trace := by
      rw [hcount]
      exact hsel
    obtain ⟨ihc, ihe⟩ := ih hnd' hsel' e' hres
    have hcc : countCloud (pushEvent st1 FetchEvent.sleepRetry).trace
        = countCloud st.trace + 1 := by
      rw [pushEvent_trace, countCloud_append, hst1, countCloud_append]
      simp [countCloud, isCloudEvent]
    rw [hcc] at ihc ihe
    constructor
    · rw [ihc]
      omega
    · rw [ihe]
      have hidx : countCloud st.trace + 1 + (MAX_RETRIES - (retries + 1))
          = countCloud st.trace + (MAX_RETRIES - retries) := by omega
      rw [hidx]
  | case8 retries st domain hnotdom body hcg hch text hshort hkw hnret =>
    intro hnd hsel e' hres
    unfold scrape_html at hres ⊢
    dsimp only at hres ⊢
    rw [if_neg hnotdom, hcg] at hres ⊢
    dsimp only at hres ⊢
    rw [if_neg hch] at hres ⊢
    rw [if_pos hshort, if_neg hkw, dif_neg hnret] at hres ⊢
    have hM : MAX_RETRIES - retries = 0 := by omega
    dsimp only at hres
    cases hres
    constructor
    · rw [pushEvent_trace, countCloud_append, hM]
      simp [countCloud, isCloudEvent]
    · unfold attemptException
      rw [hM, Nat.add_zero, hcg]
  | case9 retries st domain hnotdom body hcg hch text hnshort =>
    intro hnd hsel e' hres
    unfold scrape_html at hres
    dsimp only at hres
    rw [if_neg hnotdom, hcg] at hres
    dsimp only at hres
    rw [if_neg hch] at hres
    rw [if_neg hnshort] at hres
    cases hres
  | case10 retries st domain hnotdom e hcg hkw =>
    intro _ hsel ev _
    exfalso
    unfold scrape_html at hsel
    dsimp only at hsel
    rw [if_neg hnotdom, hcg] at hsel
    dsimp only at hsel
    rw [if_pos hkw] at hsel
    obtain ⟨e1, he1, hs1⟩ := sel_fallback_trace env
      (addDomain (pushEvent st (FetchEvent.cloudGet (countCloud st.trace) (Except.error e))) domain)
    rw [hs1, addDomain_trace, pushEvent_trace, countSel_append, countSel_append,
      countSel_single_sel e1 he1] at hsel
    omega
  | case11 retries st domain hnotdom e hcg st1 hkw hret ih =>
    intro hnd hsel e' hres
    unfold scrape_html at hsel hres ⊢
    dsimp only at hsel hres ⊢
    rw [if_neg hnotdom, hcg] at hsel hres ⊢
    dsimp only at hsel hres ⊢
    rw [if_neg hkw, dif_pos hret] at hsel hres ⊢
    have hst1 : st1.trace
        = st.trace ++ [FetchEvent.cloudGet (countCloud st.trace) (Except.error e)] := rfl
    have hnd' : (pushEvent st1 FetchEvent.sleepRetry).seleniumDomains.contains
        (get_domain url) = false := hnd
    have hcount : countSel (pushEvent st1 FetchEvent.sleepRetry).trace
        = countSel st.trace := by
      rw [pushEvent_trace, countSel_append, hst1, countSel_append]
      simp [countSel, isSelEvent]
    have hsel' : countSel ((scrape_html env url (retries + 1)
        (pushEvent st1 FetchEvent.sleepRetry)).2).trace
        = countSel (pushEvent st1 FetchEvent.sleepRetry).trace := by
      rw [hcount]
      exact hsel
    obtain ⟨ihc, ihe⟩ := ih hnd' hsel' e' hres
    have hcc : countCloud (pushEvent st1 FetchEvent.sleepRetry).trace
        = countCloud st.trace + 1 := by
      rw [pushEvent_trace, countCloud_append, hst1, countCloud_append]
      simp [countCloud, isCloudEvent]
    rw [hcc] at ihc ihe
    constructor
    · rw [ihc]
      omega
    · rw [ihe]
      have hidx : countCloud st.trace + 1 + (MAX_RETRIES - (retries + 1))
          = countCloud st.trace + (MAX_RETRIES - retries) := by omega
      rw [hidx]
  | case12 retries st domain hnotdom e hcg hkw hnret =>
    intro hnd hsel e' hres
    unfold scrape_html at hres ⊢
    dsimp only at hres ⊢
    rw [if_neg hnotdom, hcg] at hres ⊢
    dsimp only at hres ⊢
    rw [if_neg hkw, dif_neg hnret] at hres ⊢
    have hM : MAX_RETRIES - retries = 0 := by omega
    dsimp only at hres
    cases hres
    constructor
    · rw [pushEvent_trace, countCloud_append, hM]
      simp [countCloud, isCloudEvent]
    · unfold attemptException
      rw [hM, Nat.add_zero, hcg]

/-- Full characterization of `download_pdf`: either some attempt within the
remaining budget succeeds (and `True` is returned after exactly the failed
attempts before it), or every attempt fails and the last exception is
re-raised after `MAX_RETRIES - retries` retries. -/
theorem download_pdf_spec (env : FetchEnv) :
    ∀ (retries : Nat) (st : ScrapeState),
      (∃ j, j ≤ MAX_RETRIES - retries ∧
        exceptIsOk (env.cloudGet (countCloud st.trace + j)) = true ∧
        (∀ i, i < j → exceptIsOk (env.cloudGet (countCloud st.trace + i)) = false) ∧
        (download_pdf env retries st).1 = .ok true ∧
        countCloud ((download_pdf env retries st).2).trace = countCloud st.trace + j + 1)
      ∨ ((∀ j, j ≤ MAX_RETRIES - retries →
            exceptIsOk (env.cloudGet (countCloud st.trace + j)) = false) ∧
        ∃ e, env.cloudGet (countCloud st.trace + (MAX_RETRIES - retries)) = .error e ∧
          (download_pdf env retries st).1 = .error e ∧
          countCloud ((download_pdf env retries st).2).trace
            = countCloud st.trace + (MAX_RETRIES - retries) + 1) := by
  intro retries st
  induction retries, st using download_pdf.induct with
  | env => exact env
  | case1 retries st k body hcg =>
    have hk : k = countCloud st.trace := rfl
    rw [hk] at hcg
    left
    refine ⟨0, by omega, ?_, ?_, ?_, ?_⟩
    · rw [Nat.add_zero, hcg]
      rfl
    · intro i hi
      exact absurd hi (Nat.not_lt_zero i)
    · unfold download_pdf
      dsimp only
      rw [hcg]
    · unfold download_pdf
      dsimp only
      rw [hcg]
      rw [pushEvent_trace, countCloud_append]
      simp [countCloud, isCloudEvent]
  | case2 retries st k e hcg st1 hret ih =>
    have hk : k = countCloud st.trace := rfl
    rw [hk] at hcg
    have hst1 : st1.trace
        = st.trace ++ [FetchEvent.cloudGet (countCloud st.trace) (Except.error e)] := rfl
    have hcc : countCloud (pushEvent st1 FetchEvent.sleepRetry).trace
        = countCloud st.trace + 1 := by
      rw [pushEvent_trace, countCloud_append, hst1, countCloud_append]
      simp [countCloud, isCloudEvent]
    unfold download_pdf
    dsimp only
    rw [hcg]
    dsimp only
    rw [dif_pos hret]
    rcases ih with ⟨j, hj, hok, hprev, hres, hcount⟩ | ⟨hall, e2, hce, hres, hcount⟩
    · left
      refine ⟨j + 1, by omega, ?_, ?_, hres, ?_⟩
      · have hidx : countCloud st.trace + (j + 1)
            = countCloud (pushEvent st1 FetchEvent.sleepRetry).trace + j := by
          rw [hcc]; omega
        rw [hidx]
        exact hok
      · intro i hi
        cases i with
        | zero =>
          rw [Nat.add_zero, hcg]
          rfl
        | succ i' =>
          have hidx : countCloud st.trace + (i' + 1)
              = countCloud (pushEvent st1 FetchEvent.sleepRetry).trace + i' := by
            rw [hcc]; omega
          rw [hidx]
          exact hprev i' (by omega)
      · rw [hcount, hcc]
        omega
    · right
      constructor
      · intro j hj
        cases j with
        | zero =>
          rw [Nat.add_zero, hcg]
          rfl
        | succ j' =>
          have hidx : countCloud st.trace + (j' + 1)
              = countCloud (pushEvent st1 FetchEvent.sleepRetry).trace + j' := by
            rw [hcc]; omega
          rw [hidx]
          exact hall j' (by omega)
      · refine ⟨e2, ?_, hres, ?_⟩
        · have hidx : countCloud st.trace + (MAX_RETRIES - retries)
              = countCloud (pushEvent st1 FetchEvent.sleepRetry).trace
                + (MAX_RETRIES - (retries + 1)) := by
            rw [hcc]; omega
          rw [hidx]
          exact hce
        · rw [hcount, hcc]
          omega
  | case3 retries st k e hcg hnret =>
    have hk : k = countCloud st.trace := rfl
    rw [hk] at hcg
    have hM : MAX_RETRIES - retries = 0 := by omega
    unfold download_pdf
    dsimp only
    rw [hcg]
    dsimp only
    rw [dif_neg hnret]
    right
    constructor
    · intro j hj
      rw [hM] at hj
      interval_cases j
      rw [Nat.add_zero, hcg]
      rfl
    · refine ⟨e, ?_, rfl, ?_⟩
      · rw [hM, Nat.add_zero, hcg]
      · rw [hM, pushEvent_trace, countCloud_append]
        simp [countCloud, isCloudEvent]

/-- When the domain is not yet marked, `scrape_html` performs at least one
cloudscraper attempt. -/
theorem scrape_html_attempts (env : FetchEnv) (url : String) (retries : Nat)
    (st : ScrapeState) (h : st.seleniumDomains.contains (get_domain url) = false) :
    countCloud st.trace + 1 ≤ countCloud ((scrape_html env url retries st).2).trace := by
  have hmono : ∀ (r : Nat) (s : ScrapeState),
      countCloud s.trace ≤ countCloud ((scrape_html env url r s).2).trace := by
    intro r s
    obtain ⟨_, ⟨tl, hext⟩, _⟩ := scrape_html_invariants env url r s
    rw [hext, countCloud_append]
    omega
  have hnotdom : ¬ st.seleniumDomains.contains (get_domain url) = true := by
    rw [h]; exact Bool.false_ne_true
  unfold scrape_html
  dsimp only
  rw [if_neg hnotdom]
  cases hc : env.cloudGet (countCloud st.trace) with
  | ok body =>
    dsimp only
    by_cases hch : cloudflareChallenge body = true
    · rw [if_pos hch]
      rcases hsel : scrape_with_selenium_fallback env (addDomain (pushEvent st
          (FetchEvent.cloudGet (countCloud st.trace) (Except.ok body)))
          (get_domain url)) with ⟨se | b, st2⟩
      case _ =>
        dsimp only
        have h2 := congrArg Prod.snd hsel
        dsimp only at h2
        obtain ⟨e1, he1, hs1⟩ := sel_fallback_trace env (addDomain (pushEvent st
          (FetchEvent.cloudGet (countCloud st.trace) (Except.ok body))) (get_domain url))
        rw [h2] at hs1
        have hc2 : countCloud st2.trace = countCloud st.trace + 1 := by
          rw [hs1, addDomain_trace, pushEvent_trace, countCloud_append, countCloud_append,
            countCloud_single_not e1 (isSel_not_cloud e1 he1)]
          simp [countCloud, isCloudEvent]
        by_cases hkw : (fallbackKeyword se && retries == 0) = true
        · rw [if_pos hkw]
          obtain ⟨e2, he2, hs2⟩ := sel_fallback_trace env (addDomain st2 (get_domain url))
          rw [hs2, addDomain_trace, countCloud_append,
            countCloud_single_not e2 (isSel_not_cloud e2 he2), hc2]
        · rw [if_neg hkw]
          by_cases hret : retries < MAX_RETRIES
          · rw [dif_pos hret]
            have := hmono (retries + 1) (pushEvent st2 FetchEvent.sleepRetry)
            have hpc : countCloud (pushEvent st2 FetchEvent.sleepRetry).trace
                = countCloud st.trace + 1 := by
              rw [pushEvent_trace, countCloud_append, hc2]
              simp [countCloud, isCloudEvent]
            omega
          · rw [dif_neg hret]
            dsimp only
            omega
      case _ =>
        dsimp only
        have h2 := congrArg Prod.snd hsel
        dsimp only at h2
        obtain ⟨e1, he1, hs1⟩ := sel_fallback_trace env (addDomain (pushEvent st
          (FetchEvent.cloudGet (countCloud st.trace) (Except.ok body))) (get_domain url))
        rw [h2] at hs1
        rw [hs1, addDomain_trace, pushEvent_trace, countCloud_append, countCloud_append,
          countCloud_single_not e1 (isSel_not_cloud e1 he1)]
        simp [countCloud, isCloudEvent]
    · rw [if_neg hch]
      by_cases hshort : (pyStrip (clean_text (env.extractText body))).data.length < 100
      · rw [if_pos hshort]
        by_cases hkw : (fallbackKeyword "Content too short, might be blocked"
            && retries == 0) = true
        · rw [if_pos hkw]
          obtain ⟨e1, he1, hs1⟩ := sel_fallback_trace env (addDomain (pushEvent st
            (FetchEvent.cloudGet (countCloud st.trace) (Except.ok body))) (get_domain url))
          rw [hs1, addDomain_trace, pushEvent_trace, countCloud_append, countCloud_append,
            countCloud_single_not e1 (isSel_not_cloud e1 he1)]
          simp [countCloud, isCloudEvent]
        · rw [if_neg hkw]
          by_cases hret : retries < MAX_RETRIES
          · rw [dif_pos hret]
            have := hmono (retries + 1) (pushEvent (pushEvent st (FetchEvent.cloudGet
              (countCloud st.trace) (Except.ok body))) FetchEvent.sleepRetry)
            have hpc : countCloud (pushEvent (pushEvent st (FetchEvent.cloudGet
                (countCloud st.trace) (Except.ok body))) FetchEvent.sleepRetry).trace
                = countCloud st.trace + 1 := by
              simp [pushEvent, countCloud_append, countCloud, isCloudEvent]
            omega
          · rw [dif_neg hret]
            rw [pushEvent_trace, countCloud_append]
            simp [countCloud, isCloudEvent]
      · rw [if_neg hshort]
        rw [pushEvent_trace, countCloud_append]
        simp [countCloud, isCloudEvent]
  | error e =>
    dsimp only
    by_cases hkw : (fallbackKeyword e && retries == 0) = true
    · rw [if_pos hkw]
      obtain ⟨e1, he1, hs1⟩ := sel_fallback_trace env (addDomain (pushEvent st
        (FetchEvent.cloudGet (countCloud st.trace) (Except.error e))) (get_domain url))
      rw [hs1, addDomain_trace, pushEvent_trace, countCloud_append, countCloud_append,
        countCloud_single_not e1 (isSel_not_cloud e1 he1)]
      simp [countCloud, isCloudEvent]
    · rw [if_neg hkw]
      by_cases hret : retries < MAX_RETRIES
      · rw [dif_pos hret]
        have := hmono (retries + 1) (pushEvent (pushEvent st (FetchEvent.cloudGet
          (countCloud st.trace) (Except.error e))) FetchEvent.sleepRetry)
        have hpc : countCloud (pushEvent (pushEvent st (FetchEvent.cloudGet
            (countCloud st.trace) (Except.error e))) FetchEvent.sleepRetry).trace
            = countCloud st.trace + 1 := by
          simp [pushEvent, countCloud_append, countCloud, isCloudEvent]
        omega
      · rw [dif_neg hret]
        rw [pushEvent_trace, countCloud_append]
        simp [countCloud, isCloudEvent]

/-- C5: during a run, `SELENIUM_DOMAINS` only grows, and once a URL's
domain is a member, `scrape_html` goes directly to the Selenium fallback:
the call is exactly one `scrape_with_selenium_fallback` and performs no
cloudscraper attempt. -/
theorem selenium_domains_memory :
    (∀ (env : FetchEnv) (url : String) (retries : Nat) (st : ScrapeState),
      st.seleniumDomains ⊆ ((scrape_html env url retries st).2).seleniumDomains) ∧
    (∀ (env : FetchEnv) (url : String) (retries : Nat) (st : ScrapeState),
      st.seleniumDomains.contains (get_domain url) = true →
        scrape_html env url retries st = scrape_with_selenium_fallback env st ∧
        countCloud ((scrape_html env url retries st).2).trace = countCloud st.trace) := by
  constructor
  · intro env url retries st
    exact (scrape_html_invariants env url retries st).1
  · intro env url retries st h
    have heq : scrape_html env url retries st = scrape_with_selenium_fallback env st := by
      unfold scrape_html
      dsimp only
      rw [if_pos h]
    refine ⟨heq, ?_⟩
    rw [heq]
    obtain ⟨e, he, hs⟩ := sel_fallback_trace env st
    rw [hs, countCloud_append, countCloud_single_not e (isSel_not_cloud e he)]
    omega

/-- Witness for `selenium_domains_memory`: for a URL on an already-marked
domain the call is the Selenium fallback itself. -/
theorem selenium_domains_memory_witness :
    stSelW.seleniumDomains.contains (get_domain "http://known.org/doc") = true ∧
    scrape_html envSelW "http://known.org/doc" 0 stSelW
      = scrape_with_selenium_fallback envSelW stSelW ∧
    countCloud ((scrape_html envSelW "http://known.org/doc" 0 stSelW).2).trace
      = countCloud stSelW.trace := by
  have h : stSelW.seleniumDomains.contains (get_domain "http://known.org/doc") = true := by
    decide
  have hmain := selenium_domains_memory.2 envSelW "http://known.org/doc" 0 stSelW h
  exact ⟨h, hmain.1, hmain.2⟩

/-- C2 (amended): starting from `retries = 0` both fetchers terminate.
`download_pdf` makes at most `MAX_RETRIES + 1 = 4` fetch attempts: either
the first successful attempt returns `True`, or all four fail and the last
exception is re-raised.  `scrape_html` makes at most four cloudscraper
attempts, and whenever its run never invokes the Selenium fallback, a
failure is raised only after the three retries, re-raising the final
attempt's exception (Selenium-fallback failures can propagate earlier). -/
theorem retry_fetchers_terminate :
    (∀ env : FetchEnv,
      (∃ k, k ≤ MAX_RETRIES ∧ exceptIsOk (env.cloudGet k) = true ∧
        (∀ i, i < k → exceptIsOk (env.cloudGet i) = false) ∧
        (download_pdf env 0 initState).1 = .ok true ∧
        countCloud ((download_pdf env 0 initState).2).trace = k + 1)
      ∨ ((∀ k, k ≤ MAX_RETRIES → exceptIsOk (env.cloudGet k) = false) ∧
        ∃ e, env.cloudGet MAX_RETRIES = .error e ∧
          (download_pdf env 0 initState).1 = .error e ∧
          countCloud ((download_pdf env 0 initState).2).trace = MAX_RETRIES + 1))
    ∧ (∀ (env : FetchEnv) (url : String),
        countCloud ((scrape_html env url 0 initState).2).trace ≤ MAX_RETRIES + 1 ∧
        (countSel ((scrape_html env url 0 initState).2).trace = 0 →
          ∀ e, (scrape_html env url 0 initState).1 = .error e →
            countCloud ((scrape_html env url 0 initState).2).trace = MAX_RETRIES + 1 ∧
            e = attemptException env MAX_RETRIES)) := by
  have h0 : countCloud initState.trace = 0 := rfl
  have hs0 : countSel initState.trace = 0 := rfl
  constructor
  · intro env
    have hspec := download_pdf_spec env 0 initState
    rw [h0] at hspec
    simpa using hspec
  · intro env url
    constructor
    · have := (scrape_html_invariants env url 0 initState).2.2
      rw [h0] at this
      simpa using this
    · intro hsel e hres
      have hnd : initState.seleniumDomains.contains (get_domain url) = false := rfl
      have hsel' : countSel ((scrape_html env url 0 initState).2).trace
          = countSel initState.trace := by rw [hs0]; exact hsel
      have := scrape_html_no_sel_error env url 0 initState hnd hsel' e hres
      rw [h0] at this
      simpa using this

/-- Witness for `retry_fetchers_terminate`: with four plain failures the
run performs no Selenium attempt, and the amended characterization yields
exactly four attempts re-raising the last exception. -/
theorem retry_fetchers_terminate_witness :
    countSel ((scrape_html envRetryW "http://w.org/a" 0 initState).2).trace = 0 ∧
    (scrape_html envRetryW "http://w.org/a" 0 initState).1
      = Except.error "connection reset" ∧
    countCloud ((scrape_html envRetryW "http://w.org/a" 0 initState).2).trace
      = MAX_RETRIES + 1 ∧
    "connection reset" = attemptException envRetryW MAX_RETRIES := by
  have hkw : fallbackKeyword "connection reset" = false := by decide
  have hsel : countSel ((scrape_html envRetryW "http://w.org/a" 0 initState).2).trace = 0 := by
    simp [scrape_html, envRetryW, initState, hkw, pushEvent, addDomain, countCloud, countSel,
      isCloudEvent, isSelEvent, MAX_RETRIES, get_domain]
  have hres : (scrape_html envRetryW "http://w.org/a" 0 initState).1
      = Except.error "connection reset" := by
    simp [scrape_html, envRetryW, initState, hkw, pushEvent, addDomain, countCloud,
      isCloudEvent, MAX_RETRIES, get_domain]
  have hmain := (retry_fetchers_terminate.2 envRetryW "http://w.org/a").2 hsel
    "connection reset" hres
  exact ⟨hsel, hres, hmain.1, hmain.2⟩

/-- C2 counterexample: `scrape_html` does not always retry before raising.
A first-attempt `403` error at `retries = 0` triggers the Selenium
fallback, and when Selenium fails its error propagates immediately: the
run raises after a single cloudscraper attempt and zero retries, and the
raised exception is Selenium's, not the last fetch exception. -/
theorem scrape_html_early_raise_counterexample :
    (scrape_html envRetryX "http://a.org/x" 0 initState).1
      = Except.error "selenium boom" ∧
    countCloud ((scrape_html envRetryX "http://a.org/x" 0 initState).2).trace = 1 ∧
    countSel ((scrape_html envRetryX "http://a.org/x" 0 initState).2).trace = 1 ∧
    1 ≠ MAX_RETRIES + 1 := by
  have hkw : fallbackKeyword "403 Forbidden" = true := by decide
  refine ⟨?_, ?_, ?_, by decide⟩
  · simp [scrape_html, envRetryX, initState, hkw, pushEvent, addDomain, countCloud,
      isCloudEvent, MAX_RETRIES, get_domain, scrape_with_selenium_fallback, countSel,
      isSelEvent]
  · simp [scrape_html, envRetryX, initState, hkw, pushEvent, addDomain, countCloud,
      isCloudEvent, MAX_RETRIES, get_domain, scrape_with_selenium_fallback, countSel,
      isSelEvent]
  · simp [scrape_html, envRetryX, initState, hkw, pushEvent, addDomain, countCloud,
      isCloudEvent, MAX_RETRIES, get_domain, scrape_with_selenium_fallback, countSel,
      isSelEvent]

/-- C3 (amended): the fetch pipeline is plain client first, cloudscraper on
failure, Selenium last.  The trace starts with the plain attempt; a plain
success ends the run with no fallback activity; a plain failure leads to at
least one cloudscraper attempt; a run without Selenium activity never saw a
challenge page (so challenge detection always triggers the fallback); and a
`403`/`forbidden`/`cloudflare`/`blocked` error on the first cloudscraper
attempt triggers the Selenium fallback. -/
theorem fetch_pipeline_order (env : PipelineEnv) (url : String) :
    (∃ rest, ((fetch_pipeline env url).2).trace
      = FetchEvent.plainGet env.plainGet :: rest) ∧
    (exceptIsOk env.plainGet = true →
      countCloud ((fetch_pipeline env url).2).trace = 0 ∧
      countSel ((fetch_pipeline env url).2).trace = 0) ∧
    (exceptIsOk env.plainGet = false →
      1 ≤ countCloud ((fetch_pipeline env url).2).trace) ∧
    (countSel ((fetch_pipeline env url).2).trace = 0 →
      ∀ ev ∈ ((fetch_pipeline env url).2).trace, isChallengeOk ev = false) ∧
    (∀ ekw, exceptIsOk env.plainGet = false → env.fetch.cloudGet 0 = .error ekw →
      fallbackKeyword ekw = true →
      1 ≤ countSel ((fetch_pipeline env url).2).trace) := by
  refine ⟨?_, ?_, ?_, ?_, ?_⟩
  · cases hpg : env.plainGet with
    | ok body =>
      unfold fetch_pipeline plain_scrape_html
      rw [hpg]
      exact ⟨[], rfl⟩
    | error e =>
      unfold fetch_pipeline plain_scrape_html
      rw [hpg]
      dsimp only
      obtain ⟨_, ⟨tl, hext⟩, _⟩ := scrape_html_invariants env.fetch url 0
        { seleniumDomains := [], trace := [FetchEvent.plainGet (Except.error e)] }
      rw [hext]
      exact ⟨tl, rfl⟩
  · intro hok
    cases hpg : env.plainGet with
    | ok body =>
      unfold fetch_pipeline plain_scrape_html
      rw [hpg]
      exact ⟨rfl, rfl⟩
    | error e =>
      rw [hpg] at hok
      cases hok
  · intro hbad
    cases hpg : env.plainGet with
    | ok body =>
      rw [hpg] at hbad
      cases hbad
    | error e =>
      unfold fetch_pipeline plain_scrape_html
      rw [hpg]
      dsimp only
      have h := scrape_html_attempts env.fetch url 0
        { seleniumDomains := [], trace := [FetchEvent.plainGet (Except.error e)] } rfl
      simpa using h
  · intro hsel ev hev
    cases hpg : env.plainGet with
    | ok body =>
      unfold fetch_pipeline plain_scrape_html at hev
      rw [hpg] at hev
      dsimp only at hev
      rcases List.mem_singleton.mp hev with rfl
      rfl
    | error e =>
      unfold fetch_pipeline plain_scrape_html at hsel hev
      rw [hpg] at hsel hev
      dsimp only at hsel hev
      have hres := scrape_html_no_sel_no_challenge env.fetch url 0
        { seleniumDomains := [], trace := [FetchEvent.plainGet (Except.error e)] }
        (by simpa [countSel, isSelEvent] using hsel) ev hev
      rcases hres with hin | hok
      · rcases List.mem_singleton.mp hin with rfl
        rfl
      · exact hok
  · intro ekw hbad hc0 hkw
    cases hpg : env.plainGet with
    | ok body =>
      rw [hpg] at hbad
      cases hbad
    | error e =>
      unfold fetch_pipeline plain_scrape_html
      rw [hpg]
      dsimp only
      unfold scrape_html
      dsimp only
      rw [if_neg (by exact Bool.false_ne_true)]
      have hcc0 : countCloud
          ({ seleniumDomains := [], trace := [FetchEvent.plainGet (Except.error e)] }
            : ScrapeState).trace = 0 := rfl
      rw [hcc0, hc0]
      dsimp only
      rw [if_pos (by rw [hkw]; rfl)]
      obtain ⟨e1, he1, hs1⟩ := sel_fallback_trace env.fetch
        (addDomain (pushEvent
          { seleniumDomains := [], trace := [FetchEvent.plainGet (Except.error e)] }
          (FetchEvent.cloudGet 0 (Except.error ekw))) (get_domain url))
      rw [hs1, addDomain_trace, pushEvent_trace, countSel_append, countSel_append,
        countSel_single_sel e1 he1]
      omega

/-- Witness for `fetch_pipeline_order`: a first-attempt `403` after a plain
failure reaches the Selenium fallback. -/
theorem fetch_pipeline_order_witness :
    exceptIsOk envPipeW.plainGet = false ∧
    envPipeW.fetch.cloudGet 0 = Except.error "403 Forbidden" ∧
    fallbackKeyword "403 Forbidden" = true ∧
    1 ≤ countSel ((fetch_pipeline envPipeW "http://w.net/d").2).trace := by
  refine ⟨rfl, rfl, by decide, ?_⟩
  exact (fetch_pipeline_order envPipeW "http://w.net/d").2.2.2.2 "403 Forbidden"
    rfl rfl (by decide)

/-- C3 counterexample: a `403 Forbidden` error does not always trigger the
browser-automation fallback.  When the `403` arrives on a retry
(`retries != 0`), `scrape_html` keeps retrying and finally re-raises it:
the run's trace records the `403` error yet contains no Selenium attempt. -/
theorem fetch_pipeline_403_no_fallback_counterexample :
    fallbackKeyword "403 Forbidden" = true ∧
    FetchEvent.cloudGet 1 (Except.error "403 Forbidden")
      ∈ ((fetch_pipeline envPipeX "http://c.net/p").2).trace ∧
    countSel ((fetch_pipeline envPipeX "http://c.net/p").2).trace = 0 ∧
    (fetch_pipeline envPipeX "http://c.net/p").1 = Except.error "403 Forbidden" := by
  have hkw1 : fallbackKeyword "read error" = false := by decide
  refine ⟨by decide, ?_, ?_, ?_⟩
  · simp [fetch_pipeline, plain_scrape_html, envPipeX, scrape_html, hkw1, pushEvent,
      addDomain, countCloud, countSel, isCloudEvent, isSelEvent, MAX_RETRIES, get_domain]
  · simp [fetch_pipeline, plain_scrape_html, envPipeX, scrape_html, hkw1, pushEvent,
      addDomain, countCloud, countSel, isCloudEvent, isSelEvent, MAX_RETRIES, get_domain]
  · simp [fetch_pipeline, plain_scrape_html, envPipeX, scrape_html, hkw1, pushEvent,
      addDomain, countCloud, countSel, isCloudEvent, isSelEvent, MAX_RETRIES, get_domain]

theorem expectedSaves_succ (n len : Nat) :
    expectedSaves n (len + 1)
      = (if (n + 1) % 25 == 0 then [n + 1] else []) ++ expectedSaves (n + 1) len := by
  unfold expectedSaves
  rw [List.range_succ_eq_map, List.map_cons, List.map_map, List.filter_cons]
  have hf : ((fun i => n + i + 1) ∘ Nat.succ) = (fun i => n + 1 + i + 1) := by
    funext i
    simp [Function.comp]
    omega
  rw [hf]
  split
  · rfl
  · rfl

theorem retry_loop_spec :
    ∀ (rows : List (Nat × Except String String)) (acc : LoopState),
      (retry_loop rows acc).order = acc.order ++ rows.map Prod.fst ∧
      (retry_loop rows acc).saves
        = acc.saves ++ expectedSaves (acc.error_count + acc.success_count) rows.length ∧
      (retry_loop rows acc).error_count + (retry_loop rows acc).success_count
        = acc.error_count + acc.success_count + rows.length := by
  intro rows
  induction rows with
  | nil =>
    intro acc
    refine ⟨by simp [retry_loop], by simp [retry_loop, expectedSaves], by simp [retry_loop]⟩
  | cons row rest ih =>
    intro acc
    obtain ⟨rid, outcome⟩ := row
    unfold retry_loop
    dsimp only
    rw [List.length_cons, expectedSaves_succ, List.map_cons]
    cases outcome with
    | ok v =>
      by_cases hp : (acc.error_count + acc.success_count + 1) % 25 == 0
      · rw [if_pos hp, if_pos hp]
        obtain ⟨iho, ihs, ihc⟩ := ih { acc with success_count := acc.success_count + 1, order := acc.order ++ [rid], saves := acc.saves ++ [acc.error_count + acc.success_count + 1] }
        refine ⟨?_, ?_, ?_⟩
        · rw [iho]
          simp
        · rw [ihs]
          dsimp only
          rw [List.append_assoc]
          have hn : acc.error_count + (acc.success_count + 1)
              = acc.error_count + acc.success_count + 1 := by omega
          rw [hn]
        · rw [ihc]
          dsimp only
          omega
      · rw [if_neg hp, if_neg hp]
        obtain ⟨iho, ihs, ihc⟩ := ih { acc with success_count := acc.success_count + 1, order := acc.order ++ [rid] }
        refine ⟨?_, ?_, ?_⟩
        · rw [iho]
          simp
        · rw [ihs]
          dsimp only
          have hn : acc.error_count + (acc.success_count + 1)
              = acc.error_count + acc.success_count + 1 := by omega
          rw [hn, List.nil_append]
        · rw [ihc]
          dsimp only
          omega
    | error msg =>
      by_cases hp : (acc.error_count + acc.success_count + 1) % 25 == 0
      · rw [if_pos hp, if_pos hp]
        obtain ⟨iho, ihs, ihc⟩ := ih { acc with error_count := acc.error_count + 1, order := acc.order ++ [rid], saves := acc.saves ++ [acc.error_count + acc.success_count + 1] }
        refine ⟨?_, ?_, ?_⟩
        · rw [iho]
          simp
        · rw [ihs]
          dsimp only
          rw [List.append_assoc]
          have hn : acc.error_count + 1 + acc.success_count
              = acc.error_count + acc.success_count + 1 := by omega
          rw [hn]
        · rw [ihc]
          dsimp only
          omega
      · rw [if_neg hp, if_neg hp]
        obtain ⟨iho, ihs, ihc⟩ := ih { acc with error_count := acc.error_count + 1, order := acc.order ++ [rid] }
        refine ⟨?_, ?_, ?_⟩
        · rw [iho]
          simp
        · rw [ihs]
          dsimp only
          have hn : acc.error_count + 1 + acc.success_count
              = acc.error_count + acc.success_count + 1 := by omega
          rw [hn, List.nil_append]
        · rw [ihc]
          dsimp only
          omega

theorem mem_expectedSaves_zero (len k : Nat) :
    k ∈ expectedSaves 0 len ↔ (k % 25 = 0 ∧ 1 ≤ k ∧ k ≤ len) := by
  unfold expectedSaves
  simp only [List.mem_filter, List.mem_map, List.mem_range]
  constructor
  · rintro ⟨⟨i, hi, rfl⟩, hmod⟩
    refine ⟨by simpa using hmod, by omega, by omega⟩
  · rintro ⟨hmod, h1, h2⟩
    refine ⟨⟨k - 1, by omega, by omega⟩, by simpa using hmod⟩

/-- C4: the retry orchestrator processes the rows in dataframe order,
checkpoints the results CSV inside the loop exactly when the number of
rows processed so far is a positive multiple of 25, and writes the CSV
once more unconditionally after the last row (at which point all rows
have been processed). -/
theorem retry_checkpoint_spec (rows : List (Nat × Except String String)) :
    (retry_main rows).order = rows.map Prod.fst ∧
    (retry_main rows).saves = (retry_loop rows initLoopState).saves ++ [rows.length] ∧
    (∀ k, k ∈ (retry_loop rows initLoopState).saves
      ↔ (k % 25 = 0 ∧ 1 ≤ k ∧ k ≤ rows.length)) := by
  obtain ⟨ho, hs, hc⟩ := retry_loop_spec rows initLoopState
  refine ⟨?_, ?_, ?_⟩
  · unfold retry_main
    dsimp only
    rw [ho]
    rfl
  · unfold retry_main
    dsimp only
    rw [hc]
    norm_num [initLoopState]
  · intro k
    rw [hs]
    have h0 : initLoopState.saves = [] := rfl
    have h1 : initLoopState.error_count + initLoopState.success_count = 0 := rfl
    rw [h0, h1, List.nil_append]
    exact mem_expectedSaves_zero rows.length k

/-- C10: a NaN or blank reference cell makes `process_url` return
`(None, None)` with no fetch and no file write, and the main loop then
leaves both the `ref{i}_type` and `ref{i}_error` cells at their
initialised empty-string values: blank references are silently skipped. -/
theorem process_url_blank_skip (env : RefScrapeEnv) (url : Cell) (pid : String) (ref : Nat)
    (h : pyIsna url = true ∨ pyStrip (cellToStr url) = "") :
    process_url env url pid ref = ((none, none), []) ∧
    updateRefCells (process_url env url pid ref).1.1
      (process_url env url pid ref).1.2 ("", "") = ("", "") := by
  have hcond : (pyIsna url || pyStrip (cellToStr url) == "") = true := by
    rcases h with h | h
    · rw [h]
      rfl
    · rw [h]
      simp
  have h1 : process_url env url pid ref = ((none, none), []) := by
    unfold process_url
    rw [if_pos hcond]
  refine ⟨h1, ?_⟩
  rw [h1]
  rfl

theorem process_url_blank_skip_witness :
    process_url envRefW (Cell.str "   ") "P1" 1 = ((none, none), []) ∧
    updateRefCells (process_url envRefW (Cell.str "   ") "P1" 1).1.1
      (process_url envRefW (Cell.str "   ") "P1" 1).1.2 ("", "") = ("", "") :=
  process_url_blank_skip envRefW (Cell.str "   ") "P1" 1 (Or.inr (by decide))


end SpacyDistSim
